import Mathlib

/-!
Verification development for the compositing back end of the `ai.browser`
teaching browser engine.  The JavaScript sources are shallowly embedded:
JS numbers carrying geometry, sizes and counters are modelled as `Int`
(every value the verified properties exercise is an integer, on which
IEEE doubles compute exactly), opacity-like fractional values as exact
rationals (`ℚ`), JS strings as `String`, `null`/`undefined` as
`Option`, and mutation as explicit state passing.  `performance.now()` is
modelled as the constant 0: no verified property observes wall-clock
time.  Object identity of cache entries is modelled by their (unique)
cache keys, and JS `Map`s by insertion-ordered association lists, which
matches `Map` iteration order.
-/

namespace AiBrowser

/-- Model of the JS `a || b` idiom on an optional number: `undefined` and
`0` are falsy and select the default.  (`NaN` inputs are modelled as
`none`.) -/
def jsOrQ (x : Option ℚ) (d : ℚ) : ℚ :=
  match x with
  | none => d
  | some v => if v = 0 then d else v

/-- Model of the JS `a || b` idiom on an optional string: `undefined` and
the empty string are falsy. -/
def jsOrStr (x : Option String) (d : String) : String :=
  match x with
  | none => d
  | some s => if s = "" then d else s

/-- A JS `{x, y, width, height}` rectangle.  Geometry is modelled over
`Int`: every coordinate the verified properties exercise is an integer,
and each operation below maps integers to integers exactly as the
corresponding IEEE-double operation does. -/
structure Rect where
  x : Int
  y : Int
  width : Int
  height : Int
  deriving DecidableEq, Repr

/-- Association-list lookup, modelling `Map.get` (JS `Map` keys are
unique). -/
def listFind? (l : List (String × α)) (k : String) : Option α :=
  match l with
  | [] => none
  | (k₁, v) :: rest => if k₁ = k then some v else listFind? rest k

/-- Association-list update, modelling `Map.set`: an existing key keeps
its position, a new key is appended (JS `Map` insertion order). -/
def listSet (l : List (String × α)) (k : String) (v : α) : List (String × α) :=
  match l with
  | [] => [(k, v)]
  | (k₁, v₁) :: rest =>
      if k₁ = k then (k₁, v) :: rest else (k₁, v₁) :: listSet rest k v

/-- Association-list removal, modelling `Map.delete`. -/
def listDelete (l : List (String × α)) (k : String) : List (String × α) :=
  match l with
  | [] => []
  | (k₁, v₁) :: rest =>
      if k₁ = k then rest else (k₁, v₁) :: listDelete rest k

/-- Model of `performance.now()`; wall-clock time is not observable by
any verified property. -/
def performanceNow : Int := 0

/-- Ceiling division on `Int`, modelling `Math.ceil(a / b)` for a
positive integer `b`. -/
def intCeilDiv (a b : Int) : Int := -((-a).fdiv b)

/-- The integer values `start, start+step, …` that are `< stop`,
modelling the JS loop `for (let v = start; v < stop; v += step)` for a
positive `step`. -/
def intSteps (start stop step : Int) : List Int :=
  (List.range (((stop - start + step - 1).fdiv step).toNat)).map
    (fun i => start + step * (i : Int))

/-! ## Tiling Manager (`TilingManager.js`)

The `Tile` and `TilingManager` classes.  `tileAccessOrder` stores tile
objects in JS; since every live tile is uniquely determined by its cache
key `layerId_tileX_tileY`, the model stores the keys.  The ghost field
`disposedLog` records each tile value at the moment `removeTile` disposed
it; it influences no behaviour and only lets theorems speak about
disposal. -/

/-- The layer fields read by the tiling manager (`layer` arguments are
live `Layer` objects in JS; the manager reads only these fields). -/
structure TMLayer where
  id : String
  bounds : Rect
  absoluteBounds : Option Rect
  needsRepaint : Bool
  dirtyRegion : Option Rect
  deriving DecidableEq, Repr

/-- The `Tile` class.  `priorityDistSq4` stores four times the squared
distance from the tile centre to the viewport centre (an integer even
when the centres sit on half-pixels); the source stores
`1000 - Math.sqrt(priorityDistSq4 / 4)`, an order-reversing image of this
value that is irrational in general and read by no verified property.
`rasterizedContent` is a handle to the backing canvas (`none` = null). -/
structure Tile where
  x : Int
  y : Int
  width : Int
  height : Int
  layerId : String
  tileX : Int
  tileY : Int
  rasterizedContent : Option Nat
  needsRasterization : Bool
  lastRasterizedTime : Int
  priorityDistSq4 : Int
  isVisible : Bool
  isDirty : Bool
  accessCount : Nat
  lastAccessTime : Int
  deriving DecidableEq, Repr

/-- `new Tile(x, y, width, height, layer, tileX, tileY)`. -/
def Tile.new (x y : Int) (width height : Int) (layerId : String)
    (tileX tileY : Int) : Tile :=
  { x := x, y := y, width := width, height := height, layerId := layerId
    tileX := tileX, tileY := tileY
    rasterizedContent := none, needsRasterization := true
    lastRasterizedTime := 0, priorityDistSq4 := 0
    isVisible := true, isDirty := true
    accessCount := 0, lastAccessTime := 0 }

/-- `Tile.markDirty`. -/
def Tile.markDirty (t : Tile) : Tile :=
  { t with isDirty := true, needsRasterization := true }

/-- `Tile.markClean`. -/
def Tile.markClean (t : Tile) : Tile :=
  { t with isDirty := false, needsRasterization := false
           lastRasterizedTime := performanceNow }

/-- `Tile.intersectsRect`. -/
def Tile.intersectsRect (t : Tile) (r : Rect) : Bool :=
  !(decide (t.x > r.x + r.width) || decide (r.x > t.x + t.width) ||
    decide (t.y > r.y + r.height) || decide (r.y > t.y + t.height))

/-- `Tile.calculatePriority` (stores `4·distance²`, see `Tile`; the
doubled centre `2·c = 2·x + extent` keeps the value integral). -/
def Tile.calculatePriority (t : Tile) (viewport : Rect) : Tile :=
  let viewportCenterX2 := 2 * viewport.x + viewport.width
  let viewportCenterY2 := 2 * viewport.y + viewport.height
  let tileCenterX2 := 2 * t.x + t.width
  let tileCenterY2 := 2 * t.y + t.height
  { t with priorityDistSq4 :=
      (tileCenterX2 - viewportCenterX2) ^ 2 + (tileCenterY2 - viewportCenterY2) ^ 2 }

/-- `Tile.access`. -/
def Tile.access (t : Tile) : Tile :=
  { t with accessCount := t.accessCount + 1, lastAccessTime := performanceNow }

/-- `Tile.dispose`: the backing canvas is cleared and dropped. -/
def Tile.dispose (t : Tile) : Tile :=
  { t with rasterizedContent := none }

/-- The `TilingManager` statistics object. -/
structure TMStats where
  totalTilesCreated : Nat
  totalTilesDestroyed : Nat
  tilesEvicted : Nat
  memoryUsage : Int
  cacheHits : Nat
  cacheMisses : Nat
  deriving DecidableEq, Repr

def TMStats.init : TMStats :=
  { totalTilesCreated := 0, totalTilesDestroyed := 0, tilesEvicted := 0
    memoryUsage := 0, cacheHits := 0, cacheMisses := 0 }

/-- The `TilingManager` state. -/
structure TilingManager where
  tileSize : Int
  maxTiles : Nat
  tiles : List (String × Tile)
  layerTiles : List (String × List String)
  tileAccessOrder : List String
  maxMemoryUsage : Int
  currentMemoryUsage : Int
  stats : TMStats
  disposedLog : List Tile
  deriving DecidableEq, Repr

/-- `new TilingManager(options)` with the default options. -/
def TilingManager.init : TilingManager :=
  { tileSize := 256, maxTiles := 1000, tiles := [], layerTiles := []
    tileAccessOrder := [], maxMemoryUsage := 100 * 1024 * 1024
    currentMemoryUsage := 0, stats := TMStats.init, disposedLog := [] }

/-- The tile cache key `layerId_tileX_tileY`. -/
def TilingManager.tileKey (layerId : String) (tileX tileY : Int) : String :=
  s!"{layerId}_{tileX}_{tileY}"

/-- `TilingManager.estimateTileMemoryUsage`: 4 bytes per pixel. -/
def TilingManager.estimateTileMemoryUsage (t : Tile) : Int :=
  t.width * t.height * 4

/-- `TilingManager.removeTile`: dispose, drop from the tile map, the
per-layer key set and the access order, and release its memory. -/
def TilingManager.removeTile (tm : TilingManager) (key : String) : TilingManager :=
  match listFind? tm.tiles key with
  | none => tm
  | some t =>
      let disposed := t.dispose
      let layerTiles :=
        match listFind? tm.layerTiles t.layerId with
        | none => tm.layerTiles
        | some ks =>
            let ks := ks.erase key
            if ks = [] then listDelete tm.layerTiles t.layerId
            else listSet tm.layerTiles t.layerId ks
      { tm with
          tiles := listDelete tm.tiles key
          layerTiles := layerTiles
          tileAccessOrder := tm.tileAccessOrder.erase key
          stats := { tm.stats with
                       totalTilesDestroyed := tm.stats.totalTilesDestroyed + 1 }
          currentMemoryUsage :=
            tm.currentMemoryUsage - TilingManager.estimateTileMemoryUsage t
          disposedLog := tm.disposedLog ++ [disposed] }

theorem TilingManager.removeTile_order_length (tm : TilingManager) (key : String) :
    (tm.removeTile key).tileAccessOrder.length ≤ tm.tileAccessOrder.length := by
  unfold TilingManager.removeTile
  cases h : listFind? tm.tiles key with
  | none => simp
  | some t =>
      simp only
      cases h2 : listFind? tm.layerTiles t.layerId <;>
        simpa using List.length_erase_le key tm.tileAccessOrder

/-- One shift-and-remove step of the `enforceMemoryLimit` while loop;
`fuel` only bounds the iteration count. -/
def TilingManager.enforceAux (fuel : Nat) (tm : TilingManager) : TilingManager :=
  match fuel with
  | 0 => tm
  | fuel + 1 =>
      match tm.tileAccessOrder with
      | [] => tm
      | key :: rest =>
          if tm.currentMemoryUsage > tm.maxMemoryUsage then
            let tm₁ := { tm with tileAccessOrder := rest }
            let tm₂ :=
              if (listFind? tm₁.tiles key).isSome then
                let tmr := tm₁.removeTile key
                { tmr with stats := { tmr.stats with
                    tilesEvicted := tmr.stats.tilesEvicted + 1 } }
              else tm₁
            TilingManager.enforceAux fuel tm₂
          else tm

/-- `TilingManager.enforceMemoryLimit`: while over budget and the access
order is nonempty, shift the least-recently-entered tile off the front of
the access order and remove it.  Every iteration of the JS `while` loop
shortens `tileAccessOrder` by at least one, so its length bounds the
iteration count; running `enforceAux` with that much fuel reproduces the
loop exactly. -/
def TilingManager.enforceMemoryLimit (tm : TilingManager) : TilingManager :=
  TilingManager.enforceAux tm.tileAccessOrder.length tm

/-- `TilingManager.updateTileAccessOrder`: move (or insert) the key to
the most-recently-used end. -/
def TilingManager.updateTileAccessOrder (order : List String) (key : String) :
    List String :=
  order.erase key ++ [key]

/-- `TilingManager.getOrCreateTile`.  Returns the tile (as the JS method
does) together with the updated manager. -/
def TilingManager.getOrCreateTile (tm : TilingManager) (x y : Int)
    (layer : TMLayer) : Tile × TilingManager :=
  let tileX := x.fdiv tm.tileSize
  let tileY := y.fdiv tm.tileSize
  let key := TilingManager.tileKey layer.id tileX tileY
  match listFind? tm.tiles key with
  | some t =>
      let t := t.access
      (t, { tm with
              tiles := listSet tm.tiles key t
              stats := { tm.stats with cacheHits := tm.stats.cacheHits + 1 } })
  | none =>
      let tileWidth := min tm.tileSize (layer.bounds.x + layer.bounds.width - x)
      let tileHeight := min tm.tileSize (layer.bounds.y + layer.bounds.height - y)
      let t := Tile.new x y tileWidth tileHeight layer.id tileX tileY
      let layerTiles :=
        match listFind? tm.layerTiles layer.id with
        | none => listSet tm.layerTiles layer.id [key]
        | some ks =>
            if key ∈ ks then tm.layerTiles
            else listSet tm.layerTiles layer.id (ks ++ [key])
      let tm := { tm with
          tiles := listSet tm.tiles key t
          layerTiles := layerTiles
          tileAccessOrder := TilingManager.updateTileAccessOrder tm.tileAccessOrder key
          stats := { tm.stats with
                       totalTilesCreated := tm.stats.totalTilesCreated + 1
                       cacheMisses := tm.stats.cacheMisses + 1 }
          currentMemoryUsage :=
            tm.currentMemoryUsage + TilingManager.estimateTileMemoryUsage t }
      (t, tm.enforceMemoryLimit)

/-- `TilingManager.shouldUpdateTile`. -/
def TilingManager.shouldUpdateTile (t : Tile) (layer : TMLayer) : Bool :=
  if t.isDirty then true
  else
    match layer.dirtyRegion with
    | some r => t.intersectsRect r
    | none => false

/-- `TilingManager.cleanupUnusedTiles`: purge this layer tiles whose grid
position fell outside the recomputed start/end range. -/
def TilingManager.cleanupUnusedTiles (tm : TilingManager) (layer : TMLayer) :
    TilingManager :=
  match listFind? tm.layerTiles layer.id with
  | none => tm
  | some layerTileKeys =>
      let bounds := layer.absoluteBounds.getD layer.bounds
      let ts := tm.tileSize
      let startX := bounds.x.fdiv ts * ts
      let startY := bounds.y.fdiv ts * ts
      let endX := intCeilDiv (bounds.x + bounds.width) ts * ts
      let endY := intCeilDiv (bounds.y + bounds.height) ts * ts
      let tilesToRemove := layerTileKeys.filter (fun key =>
        match listFind? tm.tiles key with
        | some t =>
            decide (t.x < startX) || decide (t.x ≥ endX) ||
              decide (t.y < startY) || decide (t.y ≥ endY)
        | none => false)
      tilesToRemove.foldl (fun s key => s.removeTile key) tm

/-- `TilingManager.generateTilesForLayer`.  The returned list holds each
tile value as pushed (the JS array holds live references; no verified
property reads a returned tile that a later iteration mutates). -/
def TilingManager.generateTilesForLayer (tm : TilingManager) (layer : TMLayer)
    (viewport : Rect) : List Tile × TilingManager :=
  let bounds := layer.absoluteBounds.getD layer.bounds
  let ts := tm.tileSize
  let startX := bounds.x.fdiv ts * ts
  let startY := bounds.y.fdiv ts * ts
  let endX := intCeilDiv (bounds.x + bounds.width) ts * ts
  let endY := intCeilDiv (bounds.y + bounds.height) ts * ts
  let cells := (intSteps startY endY ts).flatMap
    (fun y => (intSteps startX endX ts).map (fun x => (x, y)))
  let step := fun (acc : List Tile × TilingManager) (cell : Int × Int) =>
    let (tiles, tm) := acc
    let (tile, tm) := tm.getOrCreateTile cell.1 cell.2 layer
    let tile := tile.calculatePriority viewport
    let tile :=
      if layer.needsRepaint || TilingManager.shouldUpdateTile tile layer then
        tile.markDirty
      else tile
    let key := TilingManager.tileKey layer.id tile.tileX tile.tileY
    (tiles ++ [tile], { tm with tiles := listSet tm.tiles key tile })
  let (tiles, tm) := cells.foldl step ([], tm)
  (tiles, tm.cleanupUnusedTiles layer)

/-- The keys of the tile map. -/
def TilingManager.keys (tm : TilingManager) : List String :=
  tm.tiles.map Prod.fst

/-- Structural invariant of the tiling manager: every mapped tile key
appears in the access order, the map keys and the access order are
duplicate-free, and every tile logged as disposed has released its
backing storage. -/
def TMCore (tm : TilingManager) : Prop :=
  (∀ k ∈ tm.keys, k ∈ tm.tileAccessOrder) ∧
    tm.keys.Nodup ∧
    tm.tileAccessOrder.Nodup ∧
    (∀ t ∈ tm.disposedLog, t.rasterizedContent = none)

/-- Full invariant: the structural invariant plus the memory budget
(tracked memory within budget unless the tile map is empty).  It holds
for `TilingManager.init` and is preserved by `getOrCreateTile`. -/
def TMInv (tm : TilingManager) : Prop :=
  TMCore tm ∧ (tm.currentMemoryUsage ≤ tm.maxMemoryUsage ∨ tm.tiles = [])

instance (tm : TilingManager) : Decidable (TMCore tm) := by
  unfold TMCore TilingManager.keys
  infer_instance

instance (tm : TilingManager) : Decidable (TMInv tm) := by
  unfold TMInv
  infer_instance

end AiBrowser


namespace AiBrowser

/-! ## Paint records (`PaintContext.js`)

The `PaintRecord` class hierarchy.  The abstract drawing surface
(`CanvasRenderingContext2D`) is modelled as an op log plus the one piece
of state the sources read back: `globalAlpha`, which `*=` multiplies and
the save/restore stack restores. -/

/-- A 6-component 2D affine matrix `[a, b, c, d, e, f]`. -/
structure Mat2D where
  a : Int
  b : Int
  c : Int
  d : Int
  e : Int
  f : Int
  deriving DecidableEq, Repr

/-- The identity transform `[1, 0, 0, 1, 0, 0]`. -/
def Mat2D.identity : Mat2D := ⟨1, 0, 0, 1, 0, 0⟩

/-- One path-building command of a `PathPaintRecord`. -/
inductive PathCmd where
  | moveTo (x y : Int)
  | lineTo (x y : Int)
  | arc (x y radius startAngle endAngle : Int)
  | quadraticCurveTo (cpx cpy x y : Int)
  | bezierCurveTo (cp1x cp1y cp2x cp2y x y : Int)
  | closePath
  deriving DecidableEq, Repr

/-- One operation issued to the 2D drawing surface. -/
inductive CtxOp where
  | save
  | restore
  | clearRect (x y w h : Int)
  | beginPath
  | rectPath (x y w h : Int)
  | clip
  | setTransform (m : Mat2D)
  | transformBy (m : Mat2D)
  | translate (x y : Int)
  | mulGlobalAlpha (v : ℚ)
  | setFillStyle (s : String)
  | setStrokeStyle (s : String)
  | setLineWidth (n : Int)
  | setFont (s : String)
  | setTextAlign (s : String)
  | setTextBaseline (s : String)
  | setGlobalCompositeOperation (s : String)
  | setImageSmoothing (enabled : Bool)
  | fillRect (x y w h : Int)
  | strokeRect (x y w h : Int)
  | fillText (s : String) (x y : Int) (maxWidth : Option Int)
  | drawImage (handle : Nat) (x y w h : Int)
  | drawImageSub (handle : Nat) (sx sy sw sh dx dy dw dh : Int)
  | moveTo (x y : Int)
  | lineTo (x y : Int)
  | arc (x y radius startAngle endAngle : Int)
  | quadraticCurveTo (cpx cpy x y : Int)
  | bezierCurveTo (cp1x cp1y cp2x cp2y x y : Int)
  | closePath
  | fill
  | stroke
  | setShadowColor (s : String)
  | setShadowBlur (n : Int)
  | setShadowOffsetX (n : Int)
  | setShadowOffsetY (n : Int)
  deriving DecidableEq, Repr

/-- The drawing surface: an op log (oldest first) plus the `globalAlpha`
state with its save/restore stack. -/
structure Ctx where
  ops : List CtxOp
  globalAlpha : ℚ
  alphaStack : List ℚ
  deriving DecidableEq, Repr

def Ctx.init : Ctx := { ops := [], globalAlpha := 1, alphaStack := [] }

/-- Append one op to the log. -/
def Ctx.emit (ctx : Ctx) (op : CtxOp) : Ctx :=
  { ctx with ops := ctx.ops ++ [op] }

/-- `context.save()`. -/
def Ctx.save (ctx : Ctx) : Ctx :=
  { ctx with ops := ctx.ops ++ [CtxOp.save]
             alphaStack := ctx.globalAlpha :: ctx.alphaStack }

/-- `context.restore()`. -/
def Ctx.restore (ctx : Ctx) : Ctx :=
  match ctx.alphaStack with
  | [] => { ctx with ops := ctx.ops ++ [CtxOp.restore] }
  | a :: rest =>
      { ctx with ops := ctx.ops ++ [CtxOp.restore], globalAlpha := a
                 alphaStack := rest }

/-- `context.globalAlpha *= v`. -/
def Ctx.mulAlpha (ctx : Ctx) (v : ℚ) : Ctx :=
  { ctx with ops := ctx.ops ++ [CtxOp.mulGlobalAlpha v]
             globalAlpha := ctx.globalAlpha * v }

/-- Model of `||` on an optional integer: `undefined`, `NaN` (both
`none`) and `0` are falsy. -/
def jsOrInt (x : Option Int) (d : Int) : Int :=
  match x with
  | none => d
  | some v => if v = 0 then d else v

/-- Model of `x || null` on an optional integer. -/
def jsOrIntNull (x : Option Int) : Option Int :=
  match x with
  | none => none
  | some v => if v = 0 then none else some v

/-- Model of `x || null` on an optional string. -/
def jsOrStrNull (x : Option String) : Option String :=
  match x with
  | none => none
  | some s => if s = "" then none else some s

/-- The optional fields of the `params` object accepted by the
`PaintRecord` constructors (a JS object literal; absent fields are
`none`).  `targetRecord` is passed separately to the shadow constructor
to keep the parameter type non-recursive. -/
structure PaintParams where
  layerId : Option String := none
  zIndex : Option Int := none
  bounds : Option Rect := none
  opacity : Option ℚ := none
  visible : Option Bool := none
  clipRect : Option Rect := none
  transform : Option Mat2D := none
  fillStyle : Option String := none
  strokeStyle : Option String := none
  lineWidth : Option Int := none
  filled : Option Bool := none
  stroked : Option Bool := none
  text : Option String := none
  font : Option String := none
  maxWidth : Option Int := none
  textAlign : Option String := none
  textBaseline : Option String := none
  image : Option Nat := none
  sourceRect : Option Rect := none
  path : Option (List PathCmd) := none
  shadowColor : Option String := none
  shadowBlur : Option Int := none
  shadowOffsetX : Option Int := none
  shadowOffsetY : Option Int := none

/-- The fields the base `PaintRecord` constructor initialises
(`this.params` and `this.timestamp` are never read back by this core). -/
structure PaintCommon where
  layerId : Option String
  zIndex : Int
  bounds : Rect
  opacity : ℚ
  visible : Bool
  clipRect : Option Rect
  transform : Option Mat2D
  deriving DecidableEq, Repr

/-- `new PaintRecord(type, params)`, the common part. -/
def PaintCommon.new (p : PaintParams) : PaintCommon :=
  { layerId := p.layerId
    zIndex := jsOrInt p.zIndex 0
    bounds := p.bounds.getD ⟨0, 0, 0, 0⟩
    opacity := jsOrQ p.opacity 1
    visible := p.visible ≠ some false
    clipRect := p.clipRect
    transform := p.transform }

/-- The `PaintRecord` subclasses, one constructor per subclass; the
`type` tag is recovered by `PaintRecord.type`. -/
inductive PaintRecord where
  | rect (c : PaintCommon) (fillStyle : String) (strokeStyle : Option String)
      (lineWidth : Int) (filled stroked : Bool)
  | text (c : PaintCommon) (text font fillStyle : String) (maxWidth : Option Int)
      (textAlign textBaseline : String)
  | image (c : PaintCommon) (image : Option Nat) (sourceRect : Option Rect)
  | path (c : PaintCommon) (path : List PathCmd) (fillStyle : Option String)
      (strokeStyle : String) (lineWidth : Int) (filled stroked : Bool)
  | shadow (c : PaintCommon) (shadowColor : String)
      (shadowBlur shadowOffsetX shadowOffsetY : Int)
      (targetRecord : Option PaintRecord)

/-- `new RectPaintRecord(params)`. -/
def RectPaintRecord.new (p : PaintParams) : PaintRecord :=
  .rect (PaintCommon.new p) (jsOrStr p.fillStyle "#000000")
    (jsOrStrNull p.strokeStyle) (jsOrInt p.lineWidth 1)
    (p.filled ≠ some false) (p.stroked = some true)

/-- `new TextPaintRecord(params)`. -/
def TextPaintRecord.new (p : PaintParams) : PaintRecord :=
  .text (PaintCommon.new p) (jsOrStr p.text "") (jsOrStr p.font "16px serif")
    (jsOrStr p.fillStyle "#000000") (jsOrIntNull p.maxWidth)
    (jsOrStr p.textAlign "left") (jsOrStr p.textBaseline "top")

/-- `new ImagePaintRecord(params)`. -/
def ImagePaintRecord.new (p : PaintParams) : PaintRecord :=
  .image (PaintCommon.new p) p.image p.sourceRect

/-- `new PathPaintRecord(params)`. -/
def PathPaintRecord.new (p : PaintParams) : PaintRecord :=
  .path (PaintCommon.new p) (p.path.getD []) (jsOrStrNull p.fillStyle)
    (jsOrStr p.strokeStyle "#000000") (jsOrInt p.lineWidth 1)
    (p.filled = some true) (p.stroked ≠ some false)

/-- `new ShadowPaintRecord(params)`; `target` is `params.targetRecord`. -/
def ShadowPaintRecord.new (p : PaintParams) (target : Option PaintRecord) :
    PaintRecord :=
  .shadow (PaintCommon.new p) (jsOrStr p.shadowColor "rgba(0, 0, 0, 0.5)")
    (jsOrInt p.shadowBlur 10) (jsOrInt p.shadowOffsetX 0)
    (jsOrInt p.shadowOffsetY 0) target

/-- The common fields of a record. -/
def PaintRecord.common : PaintRecord → PaintCommon
  | .rect c _ _ _ _ _ => c
  | .text c _ _ _ _ _ _ => c
  | .image c _ _ => c
  | .path c _ _ _ _ _ _ => c
  | .shadow c _ _ _ _ _ => c

/-- `record.type`. -/
def PaintRecord.type : PaintRecord → String
  | .rect _ _ _ _ _ _ => "rect"
  | .text _ _ _ _ _ _ _ => "text"
  | .image _ _ _ => "image"
  | .path _ _ _ _ _ _ _ => "path"
  | .shadow _ _ _ _ _ _ => "shadow"

/-- `record.bounds`. -/
def PaintRecord.bounds (r : PaintRecord) : Rect := r.common.bounds

/-- `record.visible`. -/
def PaintRecord.visible (r : PaintRecord) : Bool := r.common.visible

/-- `record.opacity`. -/
def PaintRecord.opacity (r : PaintRecord) : ℚ := r.common.opacity

/-- `record.bounds = b` (the in-place JS assignment, as a functional
update). -/
def PaintRecord.setBounds : PaintRecord → Rect → PaintRecord
  | .rect c fs ss lw f st, b => .rect { c with bounds := b } fs ss lw f st
  | .text c t fo fs mw ta tb, b => .text { c with bounds := b } t fo fs mw ta tb
  | .image c i sr, b => .image { c with bounds := b } i sr
  | .path c pa fs ss lw f st, b => .path { c with bounds := b } pa fs ss lw f st
  | .shadow c sc sb sx sy tr, b => .shadow { c with bounds := b } sc sb sx sy tr

/-- `record.fillStyle` where present (for stating C1). -/
def PaintRecord.fillStyle? : PaintRecord → Option String
  | .rect _ fs _ _ _ _ => some fs
  | .text _ _ _ fs _ _ _ => some fs
  | .path _ _ fs _ _ _ _ => fs
  | _ => none

/-- `PathPaintRecord.executePaintOperation`: replay the path commands,
then fill and/or stroke. -/
def pathOps (cmds : List PathCmd) : List CtxOp :=
  cmds.map (fun c =>
    match c with
    | .moveTo x y => CtxOp.moveTo x y
    | .lineTo x y => CtxOp.lineTo x y
    | .arc x y r sa ea => CtxOp.arc x y r sa ea
    | .quadraticCurveTo cpx cpy x y => CtxOp.quadraticCurveTo cpx cpy x y
    | .bezierCurveTo a b c2 d x y => CtxOp.bezierCurveTo a b c2 d x y
    | .closePath => CtxOp.closePath)

mutual

/-- `PaintRecord.execute(context)`: skip invisible or fully transparent
records, otherwise save, apply clip/opacity/transform, run the
subclass-specific drawing, and restore (the JS `finally`). -/
def PaintRecord.execute (r : PaintRecord) (ctx : Ctx) : Ctx :=
  if !r.visible || r.opacity ≤ 0 then ctx
  else
    let ctx := ctx.save
    let ctx :=
      match r.common.clipRect with
      | some cr =>
          ((ctx.emit CtxOp.beginPath).emit
            (CtxOp.rectPath cr.x cr.y cr.width cr.height)).emit CtxOp.clip
      | none => ctx
    let ctx := ctx.mulAlpha r.opacity
    let ctx :=
      match r.common.transform with
      | some m => ctx.emit (CtxOp.setTransform m)
      | none => ctx
    let ctx := PaintRecord.executePaintOperation r ctx
    ctx.restore

/-- `executePaintOperation`, per subclass. -/
def PaintRecord.executePaintOperation (r : PaintRecord) (ctx : Ctx) : Ctx :=
  match r with
  | .rect c fs ss lw fl st =>
      let ctx :=
        if fl then
          (ctx.emit (CtxOp.setFillStyle fs)).emit
            (CtxOp.fillRect c.bounds.x c.bounds.y c.bounds.width c.bounds.height)
        else ctx
      if st then
        ((ctx.emit (CtxOp.setStrokeStyle (ss.getD "null"))).emit
          (CtxOp.setLineWidth lw)).emit
          (CtxOp.strokeRect c.bounds.x c.bounds.y c.bounds.width c.bounds.height)
      else ctx
  | .text c t fo fs mw ta tb =>
      ((((ctx.emit (CtxOp.setFont fo)).emit (CtxOp.setFillStyle fs)).emit
        (CtxOp.setTextAlign ta)).emit (CtxOp.setTextBaseline tb)).emit
        (CtxOp.fillText t c.bounds.x c.bounds.y mw)
  | .image c i sr =>
      match i with
      | none => ctx
      | some handle =>
          match sr with
          | some sub =>
              ctx.emit (CtxOp.drawImageSub handle sub.x sub.y sub.width sub.height
                c.bounds.x c.bounds.y c.bounds.width c.bounds.height)
          | none =>
              ctx.emit (CtxOp.drawImage handle c.bounds.x c.bounds.y
                c.bounds.width c.bounds.height)
  | .path _ cmds fs ss lw fl st =>
      if cmds.isEmpty then ctx
      else
        let ctx := (ctx.emit CtxOp.beginPath)
        let ctx := { ctx with ops := ctx.ops ++ pathOps cmds }
        let ctx :=
          match fl, fs with
          | true, some f => (ctx.emit (CtxOp.setFillStyle f)).emit CtxOp.fill
          | _, _ => ctx
        if st then
          ((ctx.emit (CtxOp.setStrokeStyle ss)).emit (CtxOp.setLineWidth lw)).emit
            CtxOp.stroke
        else ctx
  | .shadow _ sc sb sx sy tr =>
      match tr with
      | none => ctx
      | some target =>
          let ctx := (((ctx.emit (CtxOp.setShadowColor sc)).emit
            (CtxOp.setShadowBlur sb)).emit (CtxOp.setShadowOffsetX sx)).emit
            (CtxOp.setShadowOffsetY sy)
          PaintRecord.execute target ctx

end

/-! ## Rasterizer (`Rasterizer.js`)

The layer fields the rasterizer reads, the tile-signature functions and
`rasterizePaintRecords`. -/

/-- The fields of a `Layer` that the rasterizer reads. -/
structure RasterLayer where
  id : String
  bounds : Rect
  transform : Option Mat2D
  opacity : ℚ
  clipRect : Option Rect
  paintRecords : List PaintRecord

/-- The fields of a tile the rasterizer reads (the `layer` reference is
a value snapshot; the rasterizer never mutates it). -/
structure RasterTile where
  layer : RasterLayer
  tileX : Int
  tileY : Int
  x : Int
  y : Int
  width : Int
  height : Int

/-- `Rasterizer.calculateLayerContentHash`: the record count followed by
each record type — nothing else. -/
def Rasterizer.calculateLayerContentHash (layer : RasterLayer) : String :=
  layer.paintRecords.foldl (fun h r => h ++ s!"_{r.type}")
    (toString layer.paintRecords.length)

/-- `Rasterizer.generateTileSignature`: layer id, tile coordinates and
the content hash. -/
def Rasterizer.generateTileSignature (tile : RasterTile) : String :=
  s!"{tile.layer.id}_{tile.tileX}_{tile.tileY}_{Rasterizer.calculateLayerContentHash tile.layer}"

/-- `Rasterizer.isRecordInViewport`. -/
def Rasterizer.isRecordInViewport (r : PaintRecord) (viewport : Rect) : Bool :=
  !(decide (r.bounds.x > viewport.x + viewport.width) ||
    decide (r.bounds.x + r.bounds.width < viewport.x) ||
    decide (r.bounds.y > viewport.y + viewport.height) ||
    decide (r.bounds.y + r.bounds.height < viewport.y))

/-- One iteration of the `rasterizePaintRecords` loop: for a visible
record intersecting the tile-local viewport, shift its bounds into tile
coordinates in place, execute it, then restore the original bounds
object. -/
def Rasterizer.rasterStep (viewport : Rect) (acc : Ctx × List PaintRecord)
    (record : PaintRecord) : Ctx × List PaintRecord :=
  if record.visible && Rasterizer.isRecordInViewport record viewport then
    let originalBounds := record.bounds
    let record := record.setBounds
      ⟨originalBounds.x - viewport.x, originalBounds.y - viewport.y,
        originalBounds.width, originalBounds.height⟩
    let ctx := record.execute acc.1
    let record := record.setBounds originalBounds
    (ctx, acc.2 ++ [record])
  else (acc.1, acc.2 ++ [record])

/-- `Rasterizer.rasterizePaintRecords`: run `rasterStep` over the layer
paint records.  The returned layer is the layer as the loop leaves it. -/
def Rasterizer.rasterizePaintRecords (ctx : Ctx) (layer : RasterLayer)
    (viewport : Rect) : Ctx × RasterLayer :=
  let (ctx, recs) := layer.paintRecords.foldl (Rasterizer.rasterStep viewport) (ctx, [])
  (ctx, { layer with paintRecords := recs })

/-! ## Layout nodes and JS number parsing

The `LayoutNode` input (read-only to this core) and models of
`parseFloat`/`parseInt`, which here parse an optional sign, digits and an
optional decimal fraction as a prefix — exactly the shapes the style
values of this engine take (`NaN` is `none`). -/

/-- Model of `String.prototype.trim` (kernel-reducible, unlike
`String.trim`). -/
def jsTrim (s : String) : String :=
  String.mk (((s.toList.dropWhile Char.isWhitespace).reverse.dropWhile
    Char.isWhitespace).reverse)

def digitsToNat (ds : List Char) : Nat :=
  ds.foldl (fun n c => n * 10 + (c.toNat - 48)) 0

/-- Model of `parseFloat` (prefix parse; `none` = `NaN`). -/
def parseFloatQ (s : String) : Option ℚ :=
  let cs := s.toList
  let (neg, cs) :=
    match cs with
    | '-' :: rest => (true, rest)
    | '+' :: rest => (false, rest)
    | _ => (false, cs)
  let (intPart, cs) := cs.span Char.isDigit
  let fracPart :=
    match cs with
    | '.' :: rest => (rest.span Char.isDigit).1
    | _ => []
  if intPart.isEmpty && fracPart.isEmpty then none
  else
    let mag : ℚ := (digitsToNat intPart : ℚ) +
      (digitsToNat fracPart : ℚ) / ((10 : ℚ) ^ fracPart.length)
    some (if neg then -mag else mag)

/-- Model of `parseInt` in base 10 (prefix parse; `none` = `NaN`). -/
def parseIntJS (s : String) : Option Int :=
  let cs := s.toList
  let (neg, cs) :=
    match cs with
    | '-' :: rest => (true, rest)
    | '+' :: rest => (false, rest)
    | _ => (false, cs)
  let (digits, _) := cs.span Char.isDigit
  if digits.isEmpty then none
  else some ((if neg then -1 else 1) * (digitsToNat digits : Int))

/-- The computed-style keys this core reads (each `none` when absent;
kebab-case keys are camel-cased: `background-color` ↦
`backgroundColor`, `-webkit-box-reflect` ↦ `webkitBoxReflect`, …). -/
structure NodeStyle where
  backgroundColor : Option String := none
  border : Option String := none
  borderColor : Option String := none
  color : Option String := none
  fontSize : Option String := none
  fontWeight : Option String := none
  fontStyle : Option String := none
  fontFamily : Option String := none
  textAlign : Option String := none
  display : Option String := none
  visibility : Option String := none
  opacity : Option String := none
  boxShadow : Option String := none
  textShadow : Option String := none
  transform : Option String := none
  position : Option String := none
  zIndex : Option String := none
  willChange : Option String := none
  filter : Option String := none
  backdropFilter : Option String := none
  mixBlendMode : Option String := none
  isolation : Option String := none
  clipPath : Option String := none
  mask : Option String := none
  overflow : Option String := none
  webkitBoxReflect : Option String := none
  animation : Option String := none

/-- The empty style object (`{}`). -/
def NodeStyle.empty : NodeStyle := {}

/-- Border widths of the box model (`boxModel.border`). -/
structure EdgeSizes where
  top : Int
  right : Int
  bottom : Int
  left : Int
  deriving DecidableEq, Repr

structure BoxModel where
  border : EdgeSizes
  deriving DecidableEq, Repr

/-- The DOM-element fields this core reads. -/
structure ElementInfo where
  tagName : Option String := none
  nodeType : Int := 1
  data : Option String := none

/-- A layout-tree node: computed style, resolved geometry, box model,
element back-reference and children. -/
inductive LayoutNode where
  | mk (style : Option NodeStyle) (layout : Option Rect)
      (boxModel : Option BoxModel) (element : Option ElementInfo)
      (children : List LayoutNode)

def LayoutNode.style : LayoutNode → Option NodeStyle
  | .mk s _ _ _ _ => s

def LayoutNode.layout : LayoutNode → Option Rect
  | .mk _ l _ _ _ => l

def LayoutNode.boxModel : LayoutNode → Option BoxModel
  | .mk _ _ b _ _ => b

def LayoutNode.element : LayoutNode → Option ElementInfo
  | .mk _ _ _ e _ => e

def LayoutNode.children : LayoutNode → List LayoutNode
  | .mk _ _ _ _ c => c

/-! ## Paint Record Generator (`PaintRecordGenerator.js`)

The per-node record generation.  The generator statistics counters are
threaded nowhere below because no verified property reads them. -/

/-- `PaintRecordGenerator.isNodeVisible`. -/
def PaintRecordGenerator.isNodeVisible (node : LayoutNode) : Bool :=
  match node.layout with
  | none => false
  | some layout =>
      let style := node.style.getD NodeStyle.empty
      if layout.width ≤ 0 || layout.height ≤ 0 then false
      else if style.display = some "none" || style.visibility = some "hidden" ||
          style.opacity = some "0" then false
      else true

/-- `PaintRecordGenerator.createBackgroundRecord`.  (`node.layout || {}`
is modelled as the zero rectangle: every reachable call site is guarded
by `isNodeVisible`, which requires a present layout.) -/
def PaintRecordGenerator.createBackgroundRecord (node : LayoutNode)
    (layerId : String) : Option PaintRecord :=
  let style := node.style.getD NodeStyle.empty
  let layout := node.layout.getD ⟨0, 0, 0, 0⟩
  match style.backgroundColor with
  | none => none
  | some bg =>
      if bg = "" || bg = "transparent" || bg = "none" then none
      else some (RectPaintRecord.new
        { fillStyle := some bg
          bounds := some ⟨0, 0, layout.width, layout.height⟩
          layerId := some layerId })

/-- `PaintRecordGenerator.createBorderRecord`. -/
def PaintRecordGenerator.createBorderRecord (node : LayoutNode)
    (layerId : String) : Option PaintRecord :=
  let style := node.style.getD NodeStyle.empty
  let layout := node.layout.getD ⟨0, 0, 0, 0⟩
  match node.boxModel with
  | none => none
  | some boxModel =>
      if style.border = some "none" || style.border = some "0" then none
      else
        let borderColor := jsOrStr style.borderColor "#000000"
        let borderWidth := boxModel.border
        if borderWidth.top > 0 then
          some (PathPaintRecord.new
            { path := some [PathCmd.moveTo 0 0,
                PathCmd.lineTo layout.width 0,
                PathCmd.lineTo layout.width layout.height,
                PathCmd.lineTo 0 layout.height,
                PathCmd.closePath]
              strokeStyle := some borderColor
              lineWidth := some borderWidth.top
              stroked := some true
              filled := some false
              bounds := some ⟨0, 0, layout.width, layout.height⟩
              layerId := some layerId })
        else none

/-- `PaintRecordGenerator.createTextRecord`. -/
def PaintRecordGenerator.createTextRecord (node : LayoutNode) (text : String)
    (layerId : String) : Option PaintRecord :=
  let style := node.style.getD NodeStyle.empty
  let layout := node.layout.getD ⟨0, 0, 0, 0⟩
  if jsTrim text = "" then none
  else some (TextPaintRecord.new
    { text := some text
      bounds := some ⟨0, 0, layout.width, layout.height⟩
      font := some (jsOrStr style.fontWeight "normal" ++ " " ++
        jsOrStr style.fontStyle "normal" ++ " " ++
        jsOrStr style.fontSize "16px" ++ " " ++
        jsOrStr style.fontFamily "serif")
      fillStyle := some (jsOrStr style.color "#000000")
      textAlign := some (jsOrStr style.textAlign "left")
      textBaseline := some "top"
      layerId := some layerId })

/-- `PaintRecordGenerator.createContentRecords`: one text record for a
text node (`nodeType === 3`) with non-whitespace data. -/
def PaintRecordGenerator.createContentRecords (node : LayoutNode)
    (layerId : String) : List PaintRecord :=
  match node.element with
  | none => []
  | some element =>
      if element.nodeType = 3 then
        let text := element.data.getD ""
        if jsTrim text ≠ "" then
          match PaintRecordGenerator.createTextRecord node text layerId with
          | some r => [r]
          | none => []
        else []
      else []

/-- The three capture groups of the shadow regex match (three runs of
digits), or `none` when the pattern does not occur. -/
structure ShadowMatch where
  g1 : String
  g2 : String
  g3 : String

/-- Try the regex `rgba?\([^)]+\)\s+(\d+)px\s+(\d+)px\s+(\d+)px` at the
head of the character list. -/
def matchShadowAt (cs : List Char) : Option ShadowMatch :=
  match cs with
  | 'r' :: 'g' :: 'b' :: rest =>
      let rest := match rest with
        | 'a' :: r => r
        | r => r
      match rest with
      | '(' :: rest2 =>
          let (inner, rest3) := rest2.span (· ≠ ')')
          if inner.isEmpty then none
          else
            match rest3 with
            | ')' :: rest4 =>
                let (ws1, rest5) := rest4.span Char.isWhitespace
                if ws1.isEmpty then none
                else
                  let (d1, rest6) := rest5.span Char.isDigit
                  if d1.isEmpty then none
                  else
                    match rest6 with
                    | 'p' :: 'x' :: rest7 =>
                        let (ws2, rest8) := rest7.span Char.isWhitespace
                        if ws2.isEmpty then none
                        else
                          let (d2, rest9) := rest8.span Char.isDigit
                          if d2.isEmpty then none
                          else
                            match rest9 with
                            | 'p' :: 'x' :: rest10 =>
                                let (ws3, rest11) := rest10.span Char.isWhitespace
                                if ws3.isEmpty then none
                                else
                                  let (d3, rest12) := rest11.span Char.isDigit
                                  if d3.isEmpty then none
                                  else
                                    match rest12 with
                                    | 'p' :: 'x' :: _ =>
                                        some ⟨String.mk d1, String.mk d2, String.mk d3⟩
                                    | _ => none
                            | _ => none
                    | _ => none
            | _ => none
      | _ => none
  | _ => none

/-- Scan for the first match of the shadow regex (`String.match` finds
the leftmost occurrence). -/
def searchShadow : List Char → Option ShadowMatch
  | [] => none
  | c :: rest =>
      match matchShadowAt (c :: rest) with
      | some m => some m
      | none => searchShadow rest

/-- The result of `parseShadow`.  NOTE the source's group mix-up,
reproduced here: the regex has only three capture groups (the three
digit runs), so `match[1]` — used as `shadowColor` — is the FIRST digit
run, the offsets take the second and third runs, and
`parseInt(match[4])` is `parseInt(undefined) = NaN` (`none`). -/
structure ShadowParams where
  shadowColor : String
  shadowOffsetX : Option Int
  shadowOffsetY : Option Int
  shadowBlur : Option Int

/-- `PaintRecordGenerator.parseShadow`. -/
def PaintRecordGenerator.parseShadow (shadow : String) : ShadowParams :=
  match searchShadow shadow.toList with
  | some m =>
      { shadowColor := m.g1
        shadowOffsetX := parseIntJS m.g2
        shadowOffsetY := parseIntJS m.g3
        shadowBlur := none }
  | none =>
      { shadowColor := "rgba(0, 0, 0, 0.5)"
        shadowOffsetX := some 2
        shadowOffsetY := some 2
        shadowBlur := some 4 }

/-- The value of `style['box-shadow'] || style['text-shadow']`. -/
def PaintRecordGenerator.shadowStyleValue (node : LayoutNode) : Option String :=
  let style := node.style.getD NodeStyle.empty
  match style.boxShadow with
  | some s => if s = "" then style.textShadow else some s
  | none => style.textShadow

/-- `PaintRecordGenerator.createShadowRecord`: when a shadow style is
present and not `none`, wrap the FIRST record of the list (whatever its
kind) in a shadow record. -/
def PaintRecordGenerator.createShadowRecord (node : LayoutNode)
    (layerId : String) (contentRecords : List PaintRecord) :
    Option PaintRecord :=
  match PaintRecordGenerator.shadowStyleValue node with
  | none => none
  | some shadowColor =>
      if shadowColor = "" || shadowColor = "none" then none
      else
        match contentRecords with
        | [] => none
        | first :: _ =>
            let p := PaintRecordGenerator.parseShadow shadowColor
            some (ShadowPaintRecord.new
              { shadowColor := some p.shadowColor
                shadowOffsetX := p.shadowOffsetX
                shadowOffsetY := p.shadowOffsetY
                shadowBlur := p.shadowBlur
                bounds := some first.bounds
                layerId := some layerId }
              (some first))

/-- The record list accumulated by `createPaintRecordsForNode` before
the shadow step: background, then border, then content records. -/
def PaintRecordGenerator.baseRecords (node : LayoutNode) (layerId : String) :
    List PaintRecord :=
  (PaintRecordGenerator.createBackgroundRecord node layerId).toList ++
    (PaintRecordGenerator.createBorderRecord node layerId).toList ++
    PaintRecordGenerator.createContentRecords node layerId

/-- `PaintRecordGenerator.createPaintRecordsForNode`: emit background,
border and content records; if a shadow record is produced, the WHOLE
list is replaced by it (`return [shadowRecord]`). -/
def PaintRecordGenerator.createPaintRecordsForNode (node : LayoutNode)
    (layerId : String) : List PaintRecord :=
  let records := PaintRecordGenerator.baseRecords node layerId
  match PaintRecordGenerator.createShadowRecord node layerId records with
  | some shadowRecord => [shadowRecord]
  | none => records

/-- The target of a shadow record. -/
def PaintRecord.targetRecord? : PaintRecord → Option PaintRecord
  | .shadow _ _ _ _ _ tr => tr
  | _ => none

/-! ## Layer tree (`Layer.js`)

`Layer` objects form a mutable tree with parent back-references; the
model stores them in an id-keyed association list (the `allLayers` map)
with `parent`/`childIds` links, which removes the reference cycle while
keeping every mutation explicit. -/

/-- The fields of a `Layer`.  The `Layer` constructor ignores unknown
options, so `compositingReason` starts as `none` (JS `undefined`) even
when the option was passed; only `mergeLayers` ever writes it.
`isVisibleInViewport` and `absoluteBounds` are the properties the
compositor adds during preprocessing. -/
structure LayerData where
  id : String
  parent : Option String
  childIds : List String
  zIndex : Int
  opacity : ℚ
  compositingMode : String
  transform : Mat2D
  bounds : Rect
  clipRect : Option Rect
  masksToBounds : Bool
  paintRecords : List PaintRecord
  needsRepaint : Bool
  dirtyRegion : Option Rect
  isFixed : Bool
  isScrollContainer : Bool
  isComposited : Bool
  compositingReason : Option String
  layoutNode : Option LayoutNode
  isVisibleInViewport : Bool
  absoluteBounds : Option Rect

/-- The options object accepted by the `Layer` constructor (and
`LayerTree.createLayer`). -/
structure LayerOptions where
  id : Option String := none
  parent : Option String := none
  zIndex : Option Int := none
  opacity : Option ℚ := none
  compositingMode : Option String := none
  transform : Option Mat2D := none
  bounds : Option Rect := none
  clipRect : Option Rect := none
  masksToBounds : Option Bool := none
  isFixed : Option Bool := none
  isScrollContainer : Option Bool := none
  isComposited : Option Bool := none
  compositingReason : Option String := none

/-- `new Layer(options)`; `generatedId` stands for the value
`this.generateId()` would produce (a fresh timestamp-random string),
used only when `options.id` is falsy. -/
def Layer.new (options : LayerOptions) (generatedId : String) : LayerData :=
  { id := jsOrStr options.id generatedId
    parent := options.parent
    childIds := []
    zIndex := jsOrInt options.zIndex 0
    opacity := jsOrQ options.opacity 1
    compositingMode := jsOrStr options.compositingMode "normal"
    transform := options.transform.getD Mat2D.identity
    bounds := options.bounds.getD ⟨0, 0, 0, 0⟩
    clipRect := options.clipRect
    masksToBounds := options.masksToBounds.getD false
    paintRecords := []
    needsRepaint := true
    dirtyRegion := none
    isFixed := options.isFixed.getD false
    isScrollContainer := options.isScrollContainer.getD false
    isComposited := options.isComposited ≠ some false
    compositingReason := none
    layoutNode := none
    isVisibleInViewport := false
    absoluteBounds := none }

/-- The `LayerTree`: the `allLayers` map, the root id and the fresh-id
counter. -/
structure LayerTree where
  layers : List (String × LayerData)
  rootId : String
  nextLayerId : Nat

/-- `new LayerTree()`: a root layer with id `root` and z-index 0. -/
def LayerTree.new : LayerTree :=
  { layers := [("root", Layer.new { id := some "root", zIndex := some 0 } "")]
    rootId := "root"
    nextLayerId := 1 }

/-- Update one layer in the map (a JS in-place mutation). -/
def LayerTree.update (tree : LayerTree) (id : String)
    (f : LayerData → LayerData) : LayerTree :=
  match listFind? tree.layers id with
  | none => tree
  | some l => { tree with layers := listSet tree.layers id (f l) }

/-- Insert into a sorted list, after any equal keys (stability). -/
def stableInsert (le : α → α → Bool) (x : α) : List α → List α
  | [] => [x]
  | y :: ys => if le y x then y :: stableInsert le x ys else x :: y :: ys

/-- Stable insertion sort: produces the unique stable ascending
reordering, the same list JS `Array.prototype.sort` (stable since
ES2019) returns for comparator `(a, b) => key(a) - key(b)`. -/
def stableSort (le : α → α → Bool) : List α → List α
  | [] => []
  | x :: xs => stableInsert le x (stableSort le xs)

/-- Stable sort of child ids by z-index, modelling
`children.sort((a, b) => a.zIndex - b.zIndex)`. -/
def LayerTree.sortChildIds (tree : LayerTree) (ids : List String) :
    List String :=
  stableSort (fun a b =>
    decide (((listFind? tree.layers a).map (·.zIndex)).getD 0 ≤
      ((listFind? tree.layers b).map (·.zIndex)).getD 0)) ids

/-- `Layer.removeChild`. -/
def LayerTree.removeChild (tree : LayerTree) (parentId childId : String) :
    LayerTree :=
  match listFind? tree.layers parentId with
  | none => tree
  | some parent =>
      if childId ∈ parent.childIds then
        let tree := tree.update parentId
          (fun p => { p with childIds := p.childIds.erase childId })
        tree.update childId (fun c => { c with parent := none })
      else tree

/-- `Layer.addChild`: detach from any previous parent, attach, and keep
the children sorted by z-index. -/
def LayerTree.addChild (tree : LayerTree) (parentId childId : String) :
    LayerTree :=
  let tree :=
    match (listFind? tree.layers childId).bind (·.parent) with
    | some oldParent => tree.removeChild oldParent childId
    | none => tree
  let tree := tree.update childId (fun c => { c with parent := some parentId })
  tree.update parentId (fun p =>
    { p with childIds := tree.sortChildIds (p.childIds ++ [childId]) })

/-- `LayerTree.createLayer`: resolve the id (consuming `nextLayerId`
only when no truthy id was supplied — JS `||` short-circuit) and insert
the new layer. -/
def LayerTree.createLayer (tree : LayerTree) (options : LayerOptions) :
    String × LayerTree :=
  let (id, nextId) :=
    match options.id with
    | some i => if i = "" then (s!"layer_{tree.nextLayerId}", tree.nextLayerId + 1)
        else (i, tree.nextLayerId)
    | none => (s!"layer_{tree.nextLayerId}", tree.nextLayerId + 1)
  let layer := Layer.new { options with id := some id } ""
  (id, { tree with layers := listSet tree.layers id layer, nextLayerId := nextId })

/-- `Layer.dispose`: clear the paint records and recursively dispose the
children, then drop the child list.  `fuel` bounds the traversal depth;
the layer graph is acyclic by construction, so the bound is never
reached. -/
def LayerTree.disposeLayer (fuel : Nat) (tree : LayerTree) (id : String) :
    LayerTree :=
  match fuel with
  | 0 => tree
  | fuel + 1 =>
      let tree := tree.update id
        (fun l => { l with paintRecords := [], needsRepaint := true
                           dirtyRegion := none })
      let children := ((listFind? tree.layers id).map (·.childIds)).getD []
      let tree := children.foldl (fun t c => LayerTree.disposeLayer fuel t c) tree
      tree.update id (fun l => { l with childIds := [] })

/-- `LayerTree.traverseLayers`: visit a layer, then (after the callback
possibly mutated it) its current children, depth first.  `fuel` bounds
the depth exactly as in `disposeLayer`. -/
def LayerTree.traverse (fuel : Nat) (tree : LayerTree) (id : String)
    (f : LayerTree → String → LayerTree) : LayerTree :=
  match fuel with
  | 0 => tree
  | fuel + 1 =>
      let tree := f tree id
      let children := ((listFind? tree.layers id).map (·.childIds)).getD []
      children.foldl (fun t c => LayerTree.traverse fuel t c f) tree

/-! ## Layer Tree Calculator (`LayerTreeCalculator.js`) -/

/-- Boolean prefix test on character lists. -/
def listIsPrefixOf : List Char → List Char → Bool
  | [], _ => true
  | _ :: _, [] => false
  | a :: as, b :: bs => a == b && listIsPrefixOf as bs

/-- Boolean infix test on character lists. -/
def listIsInfix (pat : List Char) : List Char → Bool
  | [] => pat.isEmpty
  | c :: rest => listIsPrefixOf pat (c :: rest) || listIsInfix pat rest

/-- Substring containment, modelling `String.prototype.includes`. -/
def strContains (s pat : String) : Bool :=
  listIsInfix pat.toList s.toList

/-- Lower-casing, modelling `String.prototype.toLowerCase` (ASCII — the
tag names compared against are ASCII). -/
def strToLower (s : String) : String :=
  String.mk (s.toList.map Char.toLower)

/-- `LayerTreeCalculator.hasPositioning`. -/
def LayerTreeCalculator.hasPositioning (style : NodeStyle) : Bool :=
  style.position = some "absolute" || style.position = some "relative" ||
    style.position = some "fixed" || style.position = some "sticky"

/-- `LayerTreeCalculator.hasPositiveZIndex`. -/
def LayerTreeCalculator.hasPositiveZIndex (style : NodeStyle) : Bool :=
  match style.zIndex.bind parseIntJS with
  | some z => decide (z > 0)
  | none => false

/-- `LayerTreeCalculator.hasComplexBoxShadow`. -/
def LayerTreeCalculator.hasComplexBoxShadow (style : NodeStyle) : Bool :=
  match style.boxShadow with
  | none => false
  | some bs =>
      if bs = "" || bs = "none" then false
      else strContains bs "px 0px" || strContains bs ","

/-- `LayerTreeCalculator.isCompositingElement`. -/
def LayerTreeCalculator.isCompositingElement (node : LayoutNode) : Bool :=
  match node.element with
  | none => false
  | some element =>
      match element.tagName with
      | none => false
      | some tn =>
          if tn = "" then false
          else
            let tagName := strToLower tn
            tagName = "video" || tagName = "canvas" || tagName = "iframe" ||
              tagName = "embed" || tagName = "object"

/-- `LayerTreeCalculator.hasActiveAnimation`. -/
def LayerTreeCalculator.hasActiveAnimation (style : NodeStyle) : Bool :=
  match style.animation with
  | none => false
  | some a => !(a = "" || a = "none")

/-- Truthy-and-not value check used by several triggers
(`style.x && style.x !== v`). -/
def styleTruthyAndNot (v : Option String) (notVal : String) : Bool :=
  match v with
  | none => false
  | some s => !(s = "" || s = notVal)

/-- `LayerTreeCalculator.shouldCreateNewLayer`: the sixteen compositing
triggers in source order; the first that fires names the reason.  (The
JS records the reason into the stats object at the moment of the check;
the model's caller records the returned reason — same observable
outcome.) -/
def LayerTreeCalculator.shouldCreateNewLayer (node : LayoutNode) :
    Option String :=
  let style := node.style.getD NodeStyle.empty
  if styleTruthyAndNot style.transform "none" then some "transform"
  else if (match style.opacity with
    | some s => (match parseFloatQ s with
      | some v => decide (v < 1)
      | none => false)
    | none => false) then some "opacity"
  else if style.position = some "fixed" then some "fixed-position"
  else if LayerTreeCalculator.hasPositioning style &&
      LayerTreeCalculator.hasPositiveZIndex style then some "z-index"
  else if (match style.willChange with
    | some wc => if wc = "" then false
        else strContains wc "transform" || strContains wc "opacity" ||
          strContains wc "scroll-position"
    | none => false) then some "will-change"
  else if styleTruthyAndNot style.filter "none" then some "filter"
  else if styleTruthyAndNot style.backdropFilter "none" then
    some "backdrop-filter"
  else if styleTruthyAndNot style.mixBlendMode "normal" then
    some "mix-blend-mode"
  else if style.isolation = some "isolate" then some "isolation"
  else if styleTruthyAndNot style.clipPath "none" then some "clip-path"
  else if styleTruthyAndNot style.mask "none" then some "mask"
  else if LayerTreeCalculator.hasComplexBoxShadow style then some "box-shadow"
  else if style.overflow = some "scroll" || style.overflow = some "auto" then
    some "scroll-container"
  else if (match style.webkitBoxReflect with
    | some r => !(r = "")
    | none => false) then some "reflection"
  else if LayerTreeCalculator.isCompositingElement node then
    some "compositing-element"
  else if LayerTreeCalculator.hasActiveAnimation style then some "animation"
  else none

/-- `LayerTreeCalculator.parseTransform`: the source always returns the
identity matrix. -/
def LayerTreeCalculator.parseTransform (_transform : String) : Mat2D :=
  Mat2D.identity

/-- The calculator statistics. -/
structure CalcStats where
  totalNodes : Nat
  layersCreated : Nat
  compositingReasons : List String
  deriving DecidableEq, Repr

def CalcStats.init : CalcStats :=
  { totalNodes := 0, layersCreated := 0, compositingReasons := [] }

/-- `LayerTreeCalculator.createLayerForNode`: build the layer (z-index
and opacity parsed from style with falsy fall-backs), set transform and
clip, remember the layout node, and attach to the parent. -/
def LayerTreeCalculator.createLayerForNode (node : LayoutNode)
    (parentLayerId : String) (tree : LayerTree) (reason : String) :
    String × LayerTree :=
  let style := node.style.getD NodeStyle.empty
  let layout := node.layout.getD ⟨0, 0, 0, 0⟩
  let (layerId, tree) := tree.createLayer
    { zIndex := some (jsOrInt (style.zIndex.bind parseIntJS) 0)
      opacity := some (jsOrQ (style.opacity.bind parseFloatQ) 1)
      bounds := some layout
      isFixed := some (style.position = some "fixed")
      isComposited := some true
      compositingReason := some reason }
  let tree :=
    if styleTruthyAndNot style.transform "none" then
      tree.update layerId (fun l =>
        let m := LayerTreeCalculator.parseTransform ((style.transform).getD "")
        { l with transform := m, needsRepaint := true, dirtyRegion := none })
    else tree
  let tree :=
    if style.overflow = some "hidden" || style.overflow = some "scroll" ||
        style.overflow = some "auto" then
      tree.update layerId (fun l =>
        { l with
            clipRect := some ⟨0, 0, layout.width, layout.height⟩
            masksToBounds := true
            isScrollContainer := style.overflow = some "scroll" ||
              style.overflow = some "auto" })
    else tree
  let tree := tree.update layerId (fun l => { l with layoutNode := some node })
  let tree := tree.addChild parentLayerId layerId
  (layerId, tree)

mutual

/-- `LayerTreeCalculator.calculateForNode` for one (non-null) node. -/
def LayerTreeCalculator.calcNode : LayoutNode → String →
    LayerTree × CalcStats → LayerTree × CalcStats
  | node@(.mk _ _ _ _ children), parentLayerId, st =>
      let (tree, stats) := st
      let stats := { stats with totalNodes := stats.totalNodes + 1 }
      match LayerTreeCalculator.shouldCreateNewLayer node with
      | some reason =>
          let stats := { stats with
            layersCreated := stats.layersCreated + 1
            compositingReasons := stats.compositingReasons ++ [reason] }
          let (targetId, tree) :=
            LayerTreeCalculator.createLayerForNode node parentLayerId tree reason
          LayerTreeCalculator.calcNodes children targetId (tree, stats)
      | none =>
          LayerTreeCalculator.calcNodes children parentLayerId (tree, stats)

/-- The child loop of `calculateForNode`. -/
def LayerTreeCalculator.calcNodes (nodes : List LayoutNode)
    (parentLayerId : String) (st : LayerTree × CalcStats) :
    LayerTree × CalcStats :=
  match nodes with
  | [] => st
  | n :: rest =>
      LayerTreeCalculator.calcNodes rest parentLayerId
        (LayerTreeCalculator.calcNode n parentLayerId st)

end

/-- `calculateForNode` with the JS null check. -/
def LayerTreeCalculator.calculateForNode (node : Option LayoutNode)
    (parentLayerId : String) (st : LayerTree × CalcStats) :
    LayerTree × CalcStats :=
  match node with
  | none => st
  | some n => LayerTreeCalculator.calcNode n parentLayerId st

/-- `LayerTreeCalculator.mergeLayers` (parent absorbs its only child):
copy bounds/layout node, concatenate the compositing reasons (both
`undefined` in practice, see `LayerData`), splice the grandchildren into
the parent, detach the child and dispose it — the JS dispose still sees
the grandchildren in `child.children` and clears their records too. -/
def LayerTreeCalculator.mergeLayers (tree : LayerTree)
    (parentId childId : String) : LayerTree :=
  match listFind? tree.layers parentId, listFind? tree.layers childId with
  | some _, some child =>
      let tree := tree.update parentId (fun p =>
        { p with
            bounds := child.bounds
            layoutNode := child.layoutNode
            compositingReason := some
              ((p.compositingReason.getD "undefined") ++ ", " ++
                (child.compositingReason.getD "undefined")) })
      let tree := child.childIds.foldl (fun t g =>
        let t := t.update g (fun gc => { gc with parent := some parentId })
        t.update parentId (fun p => { p with childIds := p.childIds ++ [g] }))
        tree
      let tree := tree.removeChild parentId childId
      LayerTree.disposeLayer (tree.layers.length + 1) tree childId
  | _, _ => tree

/-- The body of the `removeUnnecessaryLayers` traversal callback: merge
a layer that has exactly one child, full opacity, an identity transform
and no clip on either side. -/
def LayerTreeCalculator.mergeCheck (tree : LayerTree) (id : String) :
    LayerTree :=
  match listFind? tree.layers id with
  | none => tree
  | some layer =>
      match layer.childIds with
      | [childId] =>
          if layer.opacity = 1 && layer.transform = Mat2D.identity then
            match listFind? tree.layers childId with
            | some child =>
                if child.clipRect = none && layer.clipRect = none then
                  LayerTreeCalculator.mergeLayers tree id childId
                else tree
            | none => tree
          else tree
      | _ => tree

/-- `LayerTreeCalculator.optimizeLayerTree`: the merge pass, the (no-op)
compatible-merge pass, and the re-sort pass. -/
def LayerTreeCalculator.optimizeLayerTree (tree : LayerTree) : LayerTree :=
  let fuel := tree.layers.length + 1
  let tree := LayerTree.traverse fuel tree tree.rootId
    LayerTreeCalculator.mergeCheck
  let tree := LayerTree.traverse fuel tree tree.rootId
    (fun t id => t.update id (fun l =>
      { l with childIds := t.sortChildIds l.childIds }))
  tree

/-- The layout-tree input object (`{root: …}`). -/
structure LayoutTree where
  root : Option LayoutNode

/-- `LayerTreeCalculator.calculate` with the default options
(compositing optimization enabled).  A `null` layout tree makes the JS
throw a `TypeError` at `layoutTree.root`; any layout-tree object runs to
completion. -/
def LayerTreeCalculator.calculate (layoutTree : Option LayoutTree) :
    Except String (LayerTree × CalcStats) :=
  match layoutTree with
  | none => .error "TypeError: Cannot read properties of null (reading root)"
  | some lt =>
      let tree := LayerTree.new
      let tree :=
        match lt.root with
        | some root =>
            match root.layout with
            | some layout =>
                tree.update "root" (fun l => { l with bounds := layout })
            | none => tree
        | none => tree
      let (tree, stats) :=
        LayerTreeCalculator.calculateForNode lt.root "root"
          (tree, CalcStats.init)
      let tree := LayerTreeCalculator.optimizeLayerTree tree
      .ok (tree, stats)

/-! ## GPU simulator (`GPUSimulator.js`)

`DrawQuad`s, batching and batch execution.  Texture object identity is
modelled by `Option Nat` handles.  The per-quad bookkeeping fields that
`drawSingleQuad` writes (`drawCallCount`, `lastDrawTime`,
`needsUpdate := false`) mutate shared quad objects in JS; they are read
only by the next `renderFrame` pass, which no verified property
exercises, so `executeBatchDraw` here returns the drawing surface and
statistics effects. -/

/-- A 3-component position (z used only for ordering). -/
structure Pos3 where
  x : Int
  y : Int
  z : Int
  deriving DecidableEq, Repr

structure Size2 where
  width : Int
  height : Int
  deriving DecidableEq, Repr

/-- The options object of the `DrawQuad` constructor. -/
structure QuadOptions where
  position : Option Pos3 := none
  size : Option Size2 := none
  transform : Option Mat2D := none
  texture : Option Nat := none
  color : Option String := none
  opacity : Option ℚ := none
  blendMode : Option String := none
  shader : Option String := none
  clipRect : Option Rect := none
  visible : Option Bool := none

/-- The `DrawQuad` class. -/
structure DrawQuad where
  position : Pos3
  size : Size2
  transform : Mat2D
  texture : Option Nat
  color : String
  opacity : ℚ
  blendMode : String
  shader : String
  clipRect : Option Rect
  visible : Bool
  needsUpdate : Bool
  drawCallCount : Nat
  deriving DecidableEq, Repr

/-- `new DrawQuad(options)`. -/
def DrawQuad.new (o : QuadOptions) : DrawQuad :=
  { position := o.position.getD ⟨0, 0, 0⟩
    size := o.size.getD ⟨100, 100⟩
    transform := o.transform.getD Mat2D.identity
    texture := o.texture
    color := jsOrStr o.color "rgba(255, 255, 255, 1)"
    opacity := jsOrQ o.opacity 1
    blendMode := jsOrStr o.blendMode "source-over"
    shader := jsOrStr o.shader "default"
    clipRect := o.clipRect
    visible := o.visible ≠ some false
    needsUpdate := true
    drawCallCount := 0 }

/-- `DrawQuad.getBounds`: the axis-aligned box of the four transformed
corners. -/
def DrawQuad.getBounds (q : DrawQuad) : Rect :=
  let x := q.position.x
  let y := q.position.y
  let w := q.size.width
  let h := q.size.height
  let m := q.transform
  let c1x := x * m.a + y * m.c + m.e
  let c1y := x * m.b + y * m.d + m.f
  let c2x := (x + w) * m.a + y * m.c + m.e
  let c2y := (x + w) * m.b + y * m.d + m.f
  let c3x := (x + w) * m.a + (y + h) * m.c + m.e
  let c3y := (x + w) * m.b + (y + h) * m.d + m.f
  let c4x := x * m.a + (y + h) * m.c + m.e
  let c4y := x * m.b + (y + h) * m.d + m.f
  let minX := min (min c1x c2x) (min c3x c4x)
  let maxX := max (max c1x c2x) (max c3x c4x)
  let minY := min (min c1y c2y) (min c3y c4y)
  let maxY := max (max c1y c2y) (max c3y c4y)
  ⟨minX, minY, maxX - minX, maxY - minY⟩

/-- `DrawQuad.intersectsViewport`. -/
def DrawQuad.intersectsViewport (q : DrawQuad) (viewport : Rect) : Bool :=
  let b := q.getBounds
  !(decide (b.x > viewport.x + viewport.width) ||
    decide (b.x + b.width < viewport.x) ||
    decide (b.y > viewport.y + viewport.height) ||
    decide (b.y + b.height < viewport.y))

/-- The open batch (`this.currentBatch`). -/
structure CurrentBatch where
  quads : List DrawQuad
  shader : String
  texture : Option Nat
  blendMode : String
  deriving DecidableEq, Repr

/-- A command of the command buffer (always of type `batch`). -/
inductive DrawCommand where
  | batch (quads : List DrawQuad) (shader : String) (texture : Option Nat)
      (blendMode : String)
  deriving DecidableEq, Repr

/-- The per-frame GPU statistics. -/
structure GPUStats where
  totalDrawCalls : Nat
  totalQuads : Nat
  totalTriangles : Nat
  totalPixels : Int
  textureSwaps : Nat
  shaderSwitches : Nat
  batchCount : Nat
  memoryUsage : Int
  deriving DecidableEq, Repr

def GPUStats.init : GPUStats :=
  { totalDrawCalls := 0, totalQuads := 0, totalTriangles := 0
    totalPixels := 0, textureSwaps := 0, shaderSwitches := 0
    batchCount := 0, memoryUsage := 0 }

/-- The `GPUSimulator` state (the shader source map and render targets
are never read back by the verified properties). -/
structure GPUSimulator where
  maxDrawQuads : Nat
  enableBatching : Bool
  drawQuads : List DrawQuad
  vramSize : Int
  usedVRAM : Int
  commandBuffer : List DrawCommand
  currentBatch : CurrentBatch
  currentShader : Option String
  currentTexture : Option Nat
  stats : GPUStats
  deriving DecidableEq, Repr

/-- `new GPUSimulator(options)` with default options. -/
def GPUSimulator.init : GPUSimulator :=
  { maxDrawQuads := 10000, enableBatching := true, drawQuads := []
    vramSize := 512 * 1024 * 1024, usedVRAM := 0, commandBuffer := []
    currentBatch := { quads := [], shader := "default", texture := none
                      blendMode := "source-over" }
    currentShader := none, currentTexture := none, stats := GPUStats.init }

/-- `GPUSimulator.canBatchWithCurrent`. -/
def GPUSimulator.canBatchWithCurrent (s : GPUSimulator) (quad : DrawQuad) :
    Bool :=
  if s.currentBatch.quads.isEmpty then false
  else
    s.currentBatch.shader = quad.shader &&
      s.currentBatch.texture = quad.texture &&
      s.currentBatch.blendMode = quad.blendMode

/-- `GPUSimulator.flushCurrentBatch`: a nonempty open batch becomes one
command in the buffer. -/
def GPUSimulator.flushCurrentBatch (s : GPUSimulator) : GPUSimulator :=
  if s.currentBatch.quads.isEmpty then s
  else
    { s with
        commandBuffer := s.commandBuffer ++
          [DrawCommand.batch s.currentBatch.quads s.currentBatch.shader
            s.currentBatch.texture s.currentBatch.blendMode]
        stats := { s.stats with batchCount := s.stats.batchCount + 1 }
        currentBatch := { s.currentBatch with quads := [] } }

/-- `GPUSimulator.submitDrawQuad`. -/
def GPUSimulator.submitDrawQuad (s : GPUSimulator) (quad : DrawQuad) :
    GPUSimulator :=
  if !quad.visible then s
  else if s.enableBatching && s.canBatchWithCurrent quad then
    { s with currentBatch :=
        { s.currentBatch with quads := s.currentBatch.quads ++ [quad] } }
  else
    let s := s.flushCurrentBatch
    { s with currentBatch :=
        { quads := [quad], shader := quad.shader, texture := quad.texture
          blendMode := quad.blendMode } }

/-- `GPUSimulator.bindShader`. -/
def GPUSimulator.bindShader (s : GPUSimulator) (shaderName : String) :
    GPUSimulator :=
  if s.currentShader ≠ some shaderName then
    { s with currentShader := some shaderName
             stats := { s.stats with
               shaderSwitches := s.stats.shaderSwitches + 1 } }
  else s

/-- `GPUSimulator.bindTexture`. -/
def GPUSimulator.bindTexture (s : GPUSimulator) (texture : Nat) :
    GPUSimulator :=
  if s.currentTexture ≠ some texture then
    { s with currentTexture := some texture
             stats := { s.stats with
               textureSwaps := s.stats.textureSwaps + 1 } }
  else s

/-- `GPUSimulator.drawSingleQuad`: save, apply the quad transform,
opacity and clip, draw texture or solid colour, restore. -/
def GPUSimulator.drawSingleQuad (ctx : Ctx) (quad : DrawQuad) : Ctx :=
  let ctx := ctx.save
  let ctx := ctx.emit (CtxOp.transformBy quad.transform)
  let ctx := ctx.mulAlpha quad.opacity
  let ctx :=
    match quad.clipRect with
    | some cr =>
        ((ctx.emit CtxOp.beginPath).emit
          (CtxOp.rectPath cr.x cr.y cr.width cr.height)).emit CtxOp.clip
    | none => ctx
  let ctx :=
    match quad.texture with
    | some handle =>
        ctx.emit (CtxOp.drawImage handle 0 0 quad.size.width quad.size.height)
    | none =>
        (ctx.emit (CtxOp.setFillStyle quad.color)).emit
          (CtxOp.fillRect 0 0 quad.size.width quad.size.height)
  ctx.restore

/-- The viewport-clipped covered pixels of one quad. -/
def quadVisiblePixels (quad : DrawQuad) (viewport : Rect) : Int :=
  let bounds := quad.getBounds
  let visibleWidth := max 0 (min (bounds.x + bounds.width)
    (viewport.x + viewport.width) - max bounds.x viewport.x)
  let visibleHeight := max 0 (min (bounds.y + bounds.height)
    (viewport.y + viewport.height) - max bounds.y viewport.y)
  visibleWidth * visibleHeight

/-- `GPUSimulator.executeBatchDraw`: one logical draw call per batch —
set the blend mode, bind shader and texture, draw each quad inside its
own save/restore, and add 1 draw call, n quads, 2n triangles and the
clipped pixel count to the statistics. -/
def GPUSimulator.executeBatchDraw (s : GPUSimulator) (ctx : Ctx)
    (command : DrawCommand) (viewport : Rect) : GPUSimulator × Ctx :=
  match command with
  | .batch quads shader texture blendMode =>
      if quads.isEmpty then (s, ctx)
      else
        let ctx := ctx.emit (CtxOp.setGlobalCompositeOperation blendMode)
        let s := s.bindShader shader
        let s :=
          match texture with
          | some t => s.bindTexture t
          | none => s
        let ctx := quads.foldl GPUSimulator.drawSingleQuad ctx
        let totalPixels := quads.foldl
          (fun acc q => acc + quadVisiblePixels q viewport) 0
        ({ s with stats := { s.stats with
              totalDrawCalls := s.stats.totalDrawCalls + 1
              totalQuads := s.stats.totalQuads + quads.length
              totalTriangles := s.stats.totalTriangles + quads.length * 2
              totalPixels := s.stats.totalPixels + totalPixels } }, ctx)

/-- The opacity of the layer stored under `i` (a specification
observer). -/
def opacityAt (t : LayerTree) (i : String) : Option ℚ :=
  (listFind? t.layers i).map (·.opacity)

/-! ## Compositor (`Compositor.js`)

The compositor pipeline: preprocessing, tile generation, the synchronous
prefix of rasterization, and the final composition, wrapped by
`composite` in a try/catch that falls back to `handleCompositorError`.
Exceptions are modelled by `Except`: the error value carries the thrown
message and the compositor state at the throw point, so the catch
handler continues from exactly that state. -/

/-- Model of `localeCompare(a, b) <= 0` for the ASCII layer ids this
engine generates (code-point order). -/
def strLe (a b : String) : Bool := !decide (b < a)

/-- Model of `Number.prototype.toFixed(2)` on an integral value (the
only values `performance.now()` takes here). -/
def jsToFixed2 (n : Int) : String := toString n ++ ".00"

/-- `LayerTree.traverseLayers` threading extra state through the
callback: visit a layer, then (after the callback possibly mutated the
tree) its current children, depth first.  `fuel` bounds the depth as in
`LayerTree.traverse`. -/
def LayerTree.traverseSt {σ : Type} (fuel : Nat) (st : σ) (tree : LayerTree)
    (id : String) (f : σ → LayerTree → String → σ × LayerTree) :
    σ × LayerTree :=
  match fuel with
  | 0 => (st, tree)
  | fuel + 1 =>
      let p := f st tree id
      let children := ((listFind? p.2.layers id).map (·.childIds)).getD []
      children.foldl (fun q c => LayerTree.traverseSt fuel q.1 q.2 c f) p

/-- The `Compositor` statistics object. -/
structure CompStats where
  layersComposited : Nat
  tilesCreated : Nat
  tilesRasterized : Nat
  compositorTime : Int
  drawCalls : Nat
  memoryUsage : Int
  deriving DecidableEq, Repr

/-- `resetStats()` / the stats object of a fresh compositor. -/
def CompStats.init : CompStats :=
  { layersComposited := 0, tilesCreated := 0, tilesRasterized := 0
    compositorTime := 0, drawCalls := 0, memoryUsage := 0 }

/-- The `Rasterizer` statistics object. -/
structure RasterStats where
  totalRasterizations : Nat
  cacheHits : Nat
  cacheMisses : Nat
  cacheEvictions : Nat
  totalRasterTime : Int
  averageRasterTime : Int
  pixelsRasterized : Nat
  deriving DecidableEq, Repr

def RasterStats.init : RasterStats :=
  { totalRasterizations := 0, cacheHits := 0, cacheMisses := 0
    cacheEvictions := 0, totalRasterTime := 0, averageRasterTime := 0
    pixelsRasterized := 0 }

/-- The mutable state of a `Rasterizer` instance: the raster cache maps
a tile signature to a handle of the cached backing canvas. -/
structure RasterizerState where
  enableCaching : Bool
  maxCacheSize : Int
  rasterCache : List (String × Nat)
  currentCacheSize : Int
  stats : RasterStats

/-- `new Rasterizer(options)` as the compositor constructs it. -/
def RasterizerState.new (enableCaching : Bool) (maxCacheSize : Int) :
    RasterizerState :=
  { enableCaching := enableCaching, maxCacheSize := maxCacheSize
    rasterCache := [], currentCacheSize := 0, stats := RasterStats.init }

/-- The fields of a `Layer` the rasterizer reads, projected from the
layer store (in JS `tile.layer` is a live reference to this object). -/
def LayerData.toRasterLayer (l : LayerData) : RasterLayer :=
  { id := l.id, bounds := l.bounds, transform := some l.transform
    opacity := l.opacity, clipRect := l.clipRect
    paintRecords := l.paintRecords }

/-- The fields of a `Layer` the tiling manager reads. -/
def LayerData.toTMLayer (l : LayerData) : TMLayer :=
  { id := l.id, bounds := l.bounds, absoluteBounds := l.absoluteBounds
    needsRepaint := l.needsRepaint, dirtyRegion := l.dirtyRegion }

/-- The `Compositor` state.  `canvasWidth`/`canvasHeight` are the canvas
dimensions; `ctx` is the drawing surface obtained from the canvas;
`currentLayerTree` is the reference `composite` records. -/
structure Compositor where
  canvasWidth : Int
  canvasHeight : Int
  ctx : Ctx
  enableTiling : Bool
  enableRasterization : Bool
  tileSize : Int
  tilingManager : TilingManager
  rasterizer : RasterizerState
  currentLayerTree : Option LayerTree
  viewport : Rect
  debugMode : Bool
  stats : CompStats

/-- The options object accepted by the `Compositor` constructor. -/
structure CompositorOptions where
  enableTiling : Option Bool := none
  enableRasterization : Option Bool := none
  tileSize : Option Int := none
  maxTiles : Option Nat := none
  enableCaching : Option Bool := none
  maxCacheSize : Option Int := none

/-- `new Compositor(canvas, options)`; the sub-components re-apply their
own `||` defaults to the options the compositor forwards. -/
def Compositor.new (canvasWidth canvasHeight : Int)
    (options : CompositorOptions) : Compositor :=
  let tileSize := jsOrInt options.tileSize 256
  let maxTiles0 : Nat :=
    match options.maxTiles with
    | none => 1000
    | some 0 => 1000
    | some n => n
  { canvasWidth := canvasWidth
    canvasHeight := canvasHeight
    ctx := Ctx.init
    enableTiling := options.enableTiling ≠ some false
    enableRasterization := options.enableRasterization ≠ some false
    tileSize := tileSize
    tilingManager := { TilingManager.init with
                         tileSize := jsOrInt (some tileSize) 256
                         maxTiles := maxTiles0 }
    rasterizer := RasterizerState.new (options.enableCaching ≠ some false)
      (jsOrInt options.maxCacheSize (100 * 1024 * 1024))
    currentLayerTree := none
    viewport := ⟨0, 0, canvasWidth, canvasHeight⟩
    debugMode := false
    stats := CompStats.init }

/-- `Compositor.calculateAbsoluteBounds`: the root keeps a copy of its
own bounds; any other layer composes its bounds through its transform
and its parent absolute bounds (`parent.absoluteBounds || parent.bounds`;
a dangling parent id cannot arise — parent links are object references
in JS). -/
def Compositor.calculateAbsoluteBounds (tree : LayerTree) (id : String) :
    LayerTree :=
  tree.update id (fun layer =>
    match layer.parent with
    | none => { layer with absoluteBounds := some layer.bounds }
    | some pid =>
        let p := (listFind? tree.layers pid).getD (Layer.new {} "")
        let pabs := p.absoluteBounds.getD p.bounds
        let m := layer.transform
        let ab : Rect :=
          ⟨layer.bounds.x * m.a + layer.bounds.y * m.c + m.e + pabs.x,
            layer.bounds.x * m.b + layer.bounds.y * m.d + m.f + pabs.y,
            layer.bounds.width, layer.bounds.height⟩
        { layer with absoluteBounds := some ab })

/-- `Compositor.isLayerVisibleInViewport`. -/
def Compositor.isLayerVisibleInViewportB (vp : Rect) (layer : LayerData) :
    Bool :=
  let bounds := layer.absoluteBounds.getD layer.bounds
  (!(decide (bounds.x > vp.x + vp.width) ||
     decide (bounds.x + bounds.width < vp.x) ||
     decide (bounds.y > vp.y + vp.height) ||
     decide (bounds.y + bounds.height < vp.y))) &&
    decide (layer.opacity > 0)

/-- `Compositor.sortLayerChildren`: sort the children by z-index (the
`indexOf` tie-break makes the comparator stable-by-position, i.e. a
stable sort on the z-index key) and recurse into the children.  `fuel`
bounds the depth; the layer graph is acyclic. -/
def Compositor.sortLayerChildren (fuel : Nat) (tree : LayerTree)
    (id : String) : LayerTree :=
  match fuel with
  | 0 => tree
  | fuel + 1 =>
      let tree := tree.update id
        (fun l => { l with childIds := tree.sortChildIds l.childIds })
      let children := ((listFind? tree.layers id).map (·.childIds)).getD []
      children.foldl (fun t c => Compositor.sortLayerChildren fuel t c) tree

/-- `Compositor.preprocessLayers` (stage 1): per visited layer compute
the absolute bounds, the viewport-visibility flag and the z-order of the
children, counting the visible layers. -/
def Compositor.preprocessLayers (c : Compositor) (tree : LayerTree) :
    Compositor × LayerTree :=
  LayerTree.traverseSt (tree.layers.length + 1) c tree tree.rootId
    (fun c tree id =>
      let tree := Compositor.calculateAbsoluteBounds tree id
      let tree := tree.update id (fun l =>
        { l with isVisibleInViewport :=
            Compositor.isLayerVisibleInViewportB c.viewport l })
      let tree := Compositor.sortLayerChildren (tree.layers.length + 1) tree id
      let c :=
        if (((listFind? tree.layers id).map
              (·.isVisibleInViewport)).getD false) then
          { c with stats := { c.stats with
              layersComposited := c.stats.layersComposited + 1 } }
        else c
      (c, tree))

/-- `Compositor.generateTiles` (stage 2): for every visible layer that
needs repaint, delegate to the tiling manager and collect the produced
tiles; record the count in the stats. -/
def Compositor.generateTiles (c : Compositor) (tree : LayerTree) :
    (Compositor × LayerTree) × List Tile :=
  let (p, tree) :=
    LayerTree.traverseSt (tree.layers.length + 1) (c, ([] : List Tile))
      tree tree.rootId
      (fun p tree id =>
        match listFind? tree.layers id with
        | none => (p, tree)
        | some layer =>
            if !layer.isVisibleInViewport || !layer.needsRepaint then (p, tree)
            else
              let (layerTiles, tm) := p.1.tilingManager.generateTilesForLayer
                layer.toTMLayer p.1.viewport
              (({ p.1 with tilingManager := tm }, p.2 ++ layerTiles), tree))
  let c := { p.1 with stats := { p.1.stats with
               tilesCreated := p.2.length } }
  ((c, tree), p.2)

/-- The synchronous prefix of `Rasterizer.rasterizeTile` (an async
function runs synchronously up to its first `await`): a cache hit
installs the cached buffer on the tile and marks it clean; otherwise the
miss counter is bumped and the function suspends at
`await this.rasterizeAsync(tile)`, deferring the actual rasterization
and cache fill past the current frame.  The clean tile is written back
through the tile map when the map still holds its key (the JS object is
shared between the map and the caller array). -/
def Rasterizer.rasterizeTileSync (r : RasterizerState) (tm : TilingManager)
    (tree : LayerTree) (tile : Tile) : RasterizerState × TilingManager :=
  let miss := ({ r with stats := { r.stats with
                   cacheMisses := r.stats.cacheMisses + 1 } }, tm)
  if r.enableCaching then
    match listFind? tree.layers tile.layerId with
    | none => miss
    | some layer =>
        let rt : RasterTile :=
          { layer := layer.toRasterLayer, tileX := tile.tileX
            tileY := tile.tileY, x := tile.x, y := tile.y
            width := tile.width, height := tile.height }
        let signature := Rasterizer.generateTileSignature rt
        match listFind? r.rasterCache signature with
        | some handle =>
            let r := { r with stats := { r.stats with
                         cacheHits := r.stats.cacheHits + 1 } }
            let tile := ({ tile with
                            rasterizedContent := some handle }).markClean
            let key := TilingManager.tileKey tile.layerId tile.tileX tile.tileY
            let tm :=
              if (listFind? tm.tiles key).isSome then
                { tm with tiles := listSet tm.tiles key tile }
              else tm
            (r, tm)
        | none => miss
  else miss

/-- `Compositor.rasterizeTiles` (stage 3): fire `rasterizeTile` for each
tile that needs rasterization (without awaiting it) and count it. -/
def Compositor.rasterizeTiles (c : Compositor) (tree : LayerTree)
    (tiles : List Tile) : Compositor :=
  tiles.foldl (fun c tile =>
    if tile.needsRasterization then
      let (r, tm) := Rasterizer.rasterizeTileSync c.rasterizer
        c.tilingManager tree tile
      { c with rasterizer := r, tilingManager := tm
               stats := { c.stats with
                 tilesRasterized := c.stats.tilesRasterized + 1 } }
    else c) c

/-- The tile comparator of `Compositor.renderTiles`: ascending layer
z-index, ties broken by `layer.id.localeCompare`. -/
def Compositor.tileLe (tree : LayerTree) (a b : Tile) : Bool :=
  let za : Int := ((listFind? tree.layers a.layerId).map (·.zIndex)).getD 0
  let zb : Int := ((listFind? tree.layers b.layerId).map (·.zIndex)).getD 0
  if za = zb then strLe a.layerId b.layerId else decide (za < zb)

/-- `Compositor.isTileVisible`. -/
def Compositor.isTileVisible (vp : Rect) (t : Tile) : Bool :=
  !(decide (t.x > vp.x + vp.width) || decide (t.x + t.width < vp.x) ||
    decide (t.y > vp.y + vp.height) || decide (t.y + t.height < vp.y))

/-- `Compositor.drawTile`: save, apply the owning layer transform and
opacity, blit the rasterized content, restore. -/
def Compositor.drawTile (c : Compositor) (tree : LayerTree) (t : Tile) :
    Compositor :=
  match t.rasterizedContent with
  | none => c
  | some handle =>
      let layer := (listFind? tree.layers t.layerId).getD (Layer.new {} "")
      let ctx := c.ctx.save
      let ctx := ctx.emit (CtxOp.setTransform layer.transform)
      let ctx := ctx.mulAlpha layer.opacity
      let ctx := ctx.emit (CtxOp.drawImage handle t.x t.y t.width t.height)
      { c with ctx := ctx.restore }

/-- `Compositor.renderTiles`: sort the tile array in place by layer
z-index then layer id, and draw every visible rasterized tile.  Each
tile is re-read through the tile map (the live object) before the
checks.  The sorted array is returned because the caller-side array is
sorted in place. -/
def Compositor.renderTiles (c : Compositor) (tree : LayerTree)
    (tiles : List Tile) : Compositor × List Tile :=
  let sorted := stableSort (Compositor.tileLe tree) tiles
  (sorted.foldl (fun c tile =>
    let key := TilingManager.tileKey tile.layerId tile.tileX tile.tileY
    let tile := (listFind? c.tilingManager.tiles key).getD tile
    if tile.rasterizedContent.isSome &&
        Compositor.isTileVisible c.viewport tile then
      let c := Compositor.drawTile c tree tile
      { c with stats := { c.stats with drawCalls := c.stats.drawCalls + 1 } }
    else c) c, sorted)

/-- `Compositor.renderPaintRecords`: shift each visible record by the
layer offset and execute it.  `const originalBounds = record.bounds` is
an alias, not a copy: `record.bounds.x += layer.bounds.x` mutates the
shared object and `record.bounds = originalBounds` re-installs that same
mutated object, so — unlike `Rasterizer.rasterizePaintRecords` — the
translation is NOT undone and the shifted bounds persist on the layer. -/
def Compositor.renderPaintRecords (c : Compositor) (tree : LayerTree)
    (id : String) : Compositor × LayerTree :=
  match listFind? tree.layers id with
  | none => (c, tree)
  | some layer =>
      let step := fun (acc : Ctx × List PaintRecord) (record : PaintRecord) =>
        if record.visible then
          let record := record.setBounds
            ⟨record.bounds.x + layer.bounds.x,
              record.bounds.y + layer.bounds.y,
              record.bounds.width, record.bounds.height⟩
          (record.execute acc.1, acc.2 ++ [record])
        else (acc.1, acc.2 ++ [record])
      let p := layer.paintRecords.foldl step (c.ctx, [])
      ({ c with ctx := p.1 },
        tree.update id (fun l => { l with paintRecords := p.2 }))

/-- `Compositor.renderLayers`: depth-first direct drawing of a visible
layer — save, transform, optional clip, opacity, the paint records, the
children, restore — counting the records as draw calls.  `fuel` bounds
the depth; the layer graph is acyclic. -/
def Compositor.renderLayers (fuel : Nat) (c : Compositor) (tree : LayerTree)
    (id : String) : Compositor × LayerTree :=
  match fuel with
  | 0 => (c, tree)
  | fuel + 1 =>
      match listFind? tree.layers id with
      | none => (c, tree)
      | some layer =>
          if !layer.isVisibleInViewport then (c, tree)
          else
            let ctx := c.ctx.save
            let ctx := ctx.emit (CtxOp.setTransform layer.transform)
            let ctx :=
              match layer.clipRect with
              | some r => ((ctx.emit CtxOp.beginPath).emit
                  (CtxOp.rectPath r.x r.y r.width r.height)).emit CtxOp.clip
              | none => ctx
            let ctx := ctx.mulAlpha layer.opacity
            let p := Compositor.renderPaintRecords { c with ctx := ctx } tree id
            let children :=
              ((listFind? p.2.layers id).map (·.childIds)).getD []
            let p := children.foldl
              (fun q child => Compositor.renderLayers fuel q.1 q.2 child) p
            let c := { p.1 with ctx := p.1.ctx.restore }
            let n := (((listFind? p.2.layers id).map
              (·.paintRecords)).getD []).length
            ({ c with stats := { c.stats with
                 drawCalls := c.stats.drawCalls + n } }, p.2)

/-- `Compositor.renderStats`: the debug statistics box. -/
def Compositor.renderStats (c : Compositor) : Compositor :=
  let statLines : List String :=
    [ "层: " ++ toString c.stats.layersComposited,
      "分块: " ++ toString c.stats.tilesCreated,
      "光栅化: " ++ toString c.stats.tilesRasterized,
      "绘制调用: " ++ toString c.stats.drawCalls,
      "时间: " ++ jsToFixed2 c.stats.compositorTime ++ "ms" ]
  let ctx := c.ctx.emit (CtxOp.setFillStyle "rgba(0, 0, 0, 0.8)")
  let ctx := ctx.emit
    (CtxOp.fillRect 10 10 200 ((statLines.length : Int) * 15 + 10))
  let ctx := ctx.emit (CtxOp.setFillStyle "#ffffff")
  let ctx := statLines.enum.foldl (fun ctx p =>
    ctx.emit (CtxOp.fillText p.2 15 (25 + (p.1 : Int) * 15) none)) ctx
  { c with ctx := ctx }

/-- `Compositor.renderDebugInfo`: tile outlines, visible-layer outlines
and the statistics box, drawn only in debug mode. -/
def Compositor.renderDebugInfo (c : Compositor) (tree : LayerTree)
    (tiles : Option (List Tile)) : Compositor :=
  let ctx := c.ctx.save
  let ctx := ctx.emit (CtxOp.setStrokeStyle "rgba(255, 0, 0, 0.5)")
  let ctx := ctx.emit (CtxOp.setLineWidth 1)
  let ctx := ctx.emit (CtxOp.setFont "12px monospace")
  let ctx :=
    match tiles with
    | some ts => ts.foldl (fun ctx t =>
        let ctx := ctx.emit (CtxOp.strokeRect t.x t.y t.width t.height)
        let ctx := ctx.emit (CtxOp.setFillStyle "rgba(255, 0, 0, 0.8)")
        ctx.emit (CtxOp.fillText
          ("Tile(" ++ toString t.tileX ++ "," ++ toString t.tileY ++ ")")
          (t.x + 2) (t.y + 12) none)) ctx
    | none => ctx
  let p := LayerTree.traverseSt (tree.layers.length + 1)
    { c with ctx := ctx } tree tree.rootId
    (fun c tree id =>
      match listFind? tree.layers id with
      | none => (c, tree)
      | some layer =>
          if layer.isVisibleInViewport then
            let bounds := layer.absoluteBounds.getD layer.bounds
            let ctx := c.ctx.emit (CtxOp.setStrokeStyle "rgba(0, 255, 0, 0.3)")
            let ctx := ctx.emit
              (CtxOp.strokeRect bounds.x bounds.y bounds.width bounds.height)
            let ctx := ctx.emit (CtxOp.setFillStyle "rgba(0, 255, 0, 0.8)")
            let ctx := ctx.emit (CtxOp.fillText
              ("Layer(" ++ layer.id ++ ") z:" ++ toString layer.zIndex)
              (bounds.x + 2) (bounds.y + 12) none)
            ({ c with ctx := ctx }, tree)
          else (c, tree))
  let c := Compositor.renderStats p.1
  { c with ctx := c.ctx.restore }

/-- `Compositor.renderFinalComposition` (stage 4): clear the canvas,
then either draw the tiles (when tiling produced an array — an empty
array is truthy) or draw the layers directly from the root, plus the
debug overlay in debug mode. -/
def Compositor.renderFinalComposition (c : Compositor) (tree : LayerTree)
    (tiles : Option (List Tile)) : Compositor × LayerTree :=
  let ctx := c.ctx.emit (CtxOp.clearRect 0 0 c.canvasWidth c.canvasHeight)
  let c := { c with ctx := ctx }
  let (c, tree, tiles) :=
    if c.enableTiling && tiles.isSome then
      let p := Compositor.renderTiles c tree (tiles.getD [])
      (p.1, tree, some p.2)
    else
      let p := Compositor.renderLayers (tree.layers.length + 1) c tree
        tree.rootId
      (p.1, p.2, tiles)
  let c := if c.debugMode then Compositor.renderDebugInfo c tree tiles else c
  (c, tree)

/-- The body of the `try` block of `Compositor.composite` (stages 1–4).
The only dereference with a null-prone receiver is
`layerTree.traverseLayers` at stage 1, so a null layer tree is the one
input on which the body throws; the error carries the message and the
compositor state at the throw point, which is what the catch handler
receives. -/
def Compositor.compositeSteps (c : Compositor) (layerTree : Option LayerTree) :
    Except (String × Compositor) (Compositor × LayerTree) :=
  match layerTree with
  | none =>
      .error ("Cannot read properties of null (reading traverseLayers)", c)
  | some tree =>
      let p := Compositor.preprocessLayers c tree
      let (q, tiles) :=
        if p.1.enableTiling then
          let r := Compositor.generateTiles p.1 p.2
          (r.1, some r.2)
        else (p, (none : Option (List Tile)))
      let c :=
        match tiles with
        | some ts =>
            if q.1.enableRasterization then
              Compositor.rasterizeTiles q.1 q.2 ts
            else q.1
        | none => q.1
      .ok (Compositor.renderFinalComposition c q.2 tiles)

/-- `Compositor.handleCompositorError`: clear the whole canvas and paint
the diagnostic line in red monospace. -/
def Compositor.handleCompositorError (c : Compositor) (message : String) :
    Compositor :=
  let ctx := c.ctx.emit (CtxOp.clearRect 0 0 c.canvasWidth c.canvasHeight)
  let ctx := ctx.emit (CtxOp.setFillStyle "#ff0000")
  let ctx := ctx.emit (CtxOp.setFont "16px monospace")
  let ctx := ctx.emit
    (CtxOp.fillText ("合成器错误: " ++ message) 10 30 none)
  { c with ctx := ctx }

/-- The prologue of `Compositor.composite`: reset the statistics, record
the layer-tree reference and override the viewport when the options
carry one (`options.viewport || this.viewport`). -/
def Compositor.beginFrame (c : Compositor) (layerTree : Option LayerTree)
    (optViewport : Option Rect) : Compositor :=
  { c with stats := CompStats.init, currentLayerTree := layerTree
           viewport := optViewport.getD c.viewport }

/-- `Compositor.composite`: run stages 1–4 under try/catch, fall back to
`handleCompositorError` on a throw, stamp the elapsed time and return
`this.stats` in every case.  The second component is the caller layer
tree as the call leaves it; the third is the returned stats object. -/
def Compositor.composite (c0 : Compositor) (layerTree : Option LayerTree)
    (optViewport : Option Rect) : Compositor × Option LayerTree × CompStats :=
  match Compositor.compositeSteps
      (Compositor.beginFrame c0 layerTree optViewport) layerTree with
  | .ok p =>
      let c := { p.1 with stats := { p.1.stats with
                   compositorTime := performanceNow - performanceNow } }
      (c, some p.2, c.stats)
  | .error e =>
      let c := Compositor.handleCompositorError e.2 e.1
      let c := { c with stats := { c.stats with
                   compositorTime := performanceNow - performanceNow } }
      (c, layerTree, c.stats)

end AiBrowser

/-! ## Association-list and state lemmas -/

namespace AiBrowser

theorem listFind?_eq_none {l : List (String × α)} {k : String} :
    listFind? l k = none ↔ k ∉ l.map Prod.fst := by
  induction l with
  | nil => simp [listFind?]
  | cons p rest ih =>
      obtain ⟨k₁, v⟩ := p
      by_cases h : k₁ = k <;> simp [listFind?, h, ih, Ne.symm]

theorem keys_listSet (l : List (String × α)) (k : String) (v : α) :
    (listSet l k v).map Prod.fst =
      if k ∈ l.map Prod.fst then l.map Prod.fst else l.map Prod.fst ++ [k] := by
  induction l with
  | nil => simp [listSet]
  | cons p rest ih =>
      obtain ⟨k₁, v₁⟩ := p
      by_cases h : k₁ = k
      · simp [listSet, h]
      · simp only [listSet, if_neg h, List.map_cons, ih]
        by_cases hmem : k ∈ rest.map Prod.fst <;>
          simp [hmem, h, Ne.symm h]

theorem keys_listDelete (l : List (String × α)) (k : String) :
    (listDelete l k).map Prod.fst = (l.map Prod.fst).erase k := by
  induction l with
  | nil => simp [listDelete]
  | cons p rest ih =>
      obtain ⟨k₁, v₁⟩ := p
      by_cases h : k₁ = k <;> simp [listDelete, h, List.erase_cons, ih]

theorem removeTile_fields (tm : TilingManager) (key : String) :
    (tm.removeTile key).tileSize = tm.tileSize ∧
      (tm.removeTile key).maxMemoryUsage = tm.maxMemoryUsage := by
  unfold TilingManager.removeTile
  cases listFind? tm.tiles key <;> simp

theorem removeTile_keys (tm : TilingManager) (key : String) :
    (tm.removeTile key).keys = tm.keys.erase key := by
  unfold TilingManager.removeTile
  cases h : listFind? tm.tiles key with
  | none =>
      have hk : key ∉ tm.tiles.map Prod.fst := listFind?_eq_none.1 h
      simp [TilingManager.keys, List.erase_of_not_mem hk]
  | some t => simp [TilingManager.keys, keys_listDelete]

theorem removeTile_order (tm : TilingManager) (key : String) :
    (tm.removeTile key).tileAccessOrder = tm.tileAccessOrder.erase key ∨
      (tm.removeTile key).tileAccessOrder = tm.tileAccessOrder := by
  unfold TilingManager.removeTile
  cases listFind? tm.tiles key <;> simp

theorem removeTile_log (tm : TilingManager) (key : String) :
    (tm.removeTile key).disposedLog = tm.disposedLog ∨
      ∃ t : Tile, (tm.removeTile key).disposedLog = tm.disposedLog ++ [t.dispose] := by
  unfold TilingManager.removeTile
  cases listFind? tm.tiles key with
  | none => left; simp
  | some t => right; exact ⟨t, by simp⟩

end AiBrowser

namespace AiBrowser

theorem listFind?_isSome {l : List (String × α)} {k : String} :
    (listFind? l k).isSome ↔ k ∈ l.map Prod.fst := by
  rw [← Option.not_isSome_iff_eq_none.symm.not_left]
  · simp [listFind?_eq_none]

theorem removeTile_core {tm : TilingManager} (hc : TMCore tm) (key : String) :
    TMCore (tm.removeTile key) := by
  obtain ⟨hsub, hkn, hon, hlog⟩ := hc
  unfold TilingManager.removeTile
  cases h : listFind? tm.tiles key with
  | none => exact ⟨hsub, hkn, hon, hlog⟩
  | some t =>
      refine ⟨?_, ?_, hon.erase key, ?_⟩
      · intro k' hk'
        simp only [TilingManager.keys, keys_listDelete] at hk'
        have hne : k' ≠ key := by
          intro he
          subst he
          exact (List.Nodup.not_mem_erase hkn) hk'
        have hk'' : k' ∈ tm.keys := List.mem_of_mem_erase hk'
        simpa using (List.mem_erase_of_ne hne).2 (hsub k' hk'')
      · simpa [TilingManager.keys, keys_listDelete] using hkn.erase key
      · intro t' ht'
        simp only [List.mem_append, List.mem_singleton] at ht'
        rcases ht' with h1 | h2
        · exact hlog t' h1
        · subst h2; rfl

end AiBrowser

namespace AiBrowser

theorem enforceAux_max : ∀ (fuel : Nat) (tm : TilingManager),
    (TilingManager.enforceAux fuel tm).maxMemoryUsage = tm.maxMemoryUsage := by
  intro fuel
  induction fuel with
  | zero => intro tm; rfl
  | succ n ih =>
      intro tm
      rw [TilingManager.enforceAux]
      cases horder : tm.tileAccessOrder with
      | nil => rfl
      | cons key rest =>
          by_cases hm : tm.currentMemoryUsage > tm.maxMemoryUsage
          · simp only [if_pos hm, ih]
            split
            · exact (removeTile_fields _ key).2
            · rfl
          · simp only [if_neg hm]
  
theorem enforceAux_budget : ∀ (fuel : Nat) (tm : TilingManager),
    tm.tileAccessOrder.length ≤ fuel →
    (TilingManager.enforceAux fuel tm).currentMemoryUsage ≤
        (TilingManager.enforceAux fuel tm).maxMemoryUsage ∨
      (TilingManager.enforceAux fuel tm).tileAccessOrder = [] := by
  intro fuel
  induction fuel with
  | zero =>
      intro tm h
      right
      exact List.eq_nil_of_length_eq_zero (Nat.le_zero.mp h)
  | succ n ih =>
      intro tm h
      rw [TilingManager.enforceAux]
      cases horder : tm.tileAccessOrder with
      | nil => right; exact horder
      | cons key rest =>
          by_cases hm : tm.currentMemoryUsage > tm.maxMemoryUsage
          · simp only [if_pos hm]
            apply ih
            have hrest : rest.length ≤ n := by
              have := horder ▸ h
              simpa using this
            split
            · calc (({ tm with tileAccessOrder := rest } : TilingManager).removeTile
                      key).tileAccessOrder.length
                  ≤ rest.length := TilingManager.removeTile_order_length _ key
                _ ≤ n := hrest
            · exact hrest
          · left
            simp only [if_neg hm]
            exact not_lt.mp hm

theorem removeTile_core_strong {tm : TilingManager} (key : String)
    (hsub : ∀ k ∈ tm.keys, k = key ∨ k ∈ tm.tileAccessOrder)
    (hkn : tm.keys.Nodup) (hon : tm.tileAccessOrder.Nodup)
    (hlog : ∀ t ∈ tm.disposedLog, t.rasterizedContent = none) :
    TMCore (tm.removeTile key) := by
  unfold TilingManager.removeTile
  cases h : listFind? tm.tiles key with
  | none =>
      refine ⟨?_, hkn, hon, hlog⟩
      intro k hk
      rcases hsub k hk with h1 | h2
      · exact absurd (h1 ▸ hk) (by simpa [TilingManager.keys] using listFind?_eq_none.1 h)
      · exact h2
  | some t =>
      refine ⟨?_, ?_, hon.erase key, ?_⟩
      · intro k' hk'
        simp only [TilingManager.keys, keys_listDelete] at hk'
        have hne : k' ≠ key := by
          intro he
          subst he
          exact (List.Nodup.not_mem_erase hkn) hk'
        have hk'' : k' ∈ tm.keys := List.mem_of_mem_erase hk'
        rcases hsub k' hk'' with h1 | h2
        · exact absurd h1 hne
        · simpa using (List.mem_erase_of_ne hne).2 h2
      · simpa [TilingManager.keys, keys_listDelete] using hkn.erase key
      · intro t' ht'
        simp only [List.mem_append, List.mem_singleton] at ht'
        rcases ht' with h1 | h2
        · exact hlog t' h1
        · subst h2; rfl

theorem enforceAux_core : ∀ (fuel : Nat) (tm : TilingManager),
    TMCore tm → TMCore (TilingManager.enforceAux fuel tm) := by
  intro fuel
  induction fuel with
  | zero => intro tm hc; exact hc
  | succ n ih =>
      intro tm hc
      rw [TilingManager.enforceAux]
      cases horder : tm.tileAccessOrder with
      | nil => exact hc
      | cons key rest =>
          by_cases hm : tm.currentMemoryUsage > tm.maxMemoryUsage
          · simp only [if_pos hm]
            apply ih
            obtain ⟨hsub, hkn, hon, hlog⟩ := hc
            rw [horder] at hsub hon
            have hkeynotrest : key ∉ rest := (List.nodup_cons.mp hon).1
            have hrestnodup : rest.Nodup := (List.nodup_cons.mp hon).2
            split
            · rename_i hfound
              have hcore := @removeTile_core_strong
                { tm with tileAccessOrder := rest } key
                (by
                  intro k hk
                  have := hsub k (by simpa [TilingManager.keys] using hk)
                  simpa using this)
                (by simpa [TilingManager.keys] using hkn)
                (by simpa using hrestnodup)
                (by simpa using hlog)
              exact hcore
            · rename_i hnotfound
              have hkeynot : key ∉ tm.keys := by
                have hnone : listFind? tm.tiles key = none :=
                  Option.not_isSome_iff_eq_none.mp (by simpa using hnotfound)
                exact listFind?_eq_none.1 hnone
              refine ⟨?_, hkn, hrestnodup, hlog⟩
              intro k' hk'
              have := hsub k' hk'
              simp only [List.mem_cons] at this
              rcases this with h1 | h2
              · exact absurd (h1 ▸ hk') hkeynot
              · exact h2
          · simp only [if_neg hm]
            exact hc

theorem enforceAux_suffix : ∀ (fuel : Nat) (tm : TilingManager),
    tm.tileAccessOrder.Nodup →
    ∃ n, (TilingManager.enforceAux fuel tm).tileAccessOrder =
      tm.tileAccessOrder.drop n := by
  intro fuel
  induction fuel with
  | zero => intro tm _; exact ⟨0, rfl⟩
  | succ n ih =>
      intro tm hon
      rw [TilingManager.enforceAux]
      cases horder : tm.tileAccessOrder with
      | nil => exact ⟨0, by rw [horder]; rfl⟩
      | cons key rest =>
          rw [horder] at hon
          have hkeynotrest : key ∉ rest := (List.nodup_cons.mp hon).1
          have hrestnodup : rest.Nodup := (List.nodup_cons.mp hon).2
          by_cases hm : tm.currentMemoryUsage > tm.maxMemoryUsage
          · simp only [if_pos hm]
            split
            · rename_i hfound
              have horder2 :=
                removeTile_order ({ tm with tileAccessOrder := rest } : TilingManager) key
              have hrw : (({ tm with tileAccessOrder := rest } : TilingManager).removeTile
                  key).tileAccessOrder = rest := by
                rcases horder2 with h1 | h2
                · simpa [List.erase_of_not_mem hkeynotrest] using h1
                · simpa using h2
              obtain ⟨m, hmsuffix⟩ := ih
                ({ (({ tm with tileAccessOrder := rest } : TilingManager).removeTile key) with
                    stats := { (({ tm with tileAccessOrder := rest } :
                        TilingManager).removeTile key).stats with
                      tilesEvicted := (({ tm with tileAccessOrder := rest } :
                          TilingManager).removeTile key).stats.tilesEvicted + 1 } })
                (by simpa [hrw] using hrestnodup)
              refine ⟨m + 1, ?_⟩
              rw [hmsuffix]
              simp [hrw, horder]
            · rename_i hnotfound
              obtain ⟨m, hmsuffix⟩ := ih ({ tm with tileAccessOrder := rest }) (by simpa using hrestnodup)
              refine ⟨m + 1, ?_⟩
              rw [hmsuffix]
              simp [horder]
          · simp only [if_neg hm]
            exact ⟨0, by rw [horder]; rfl⟩

end AiBrowser

namespace AiBrowser

theorem enforceMemoryLimit_of_le (tm : TilingManager)
    (h : tm.currentMemoryUsage ≤ tm.maxMemoryUsage) :
    tm.enforceMemoryLimit = tm := by
  unfold TilingManager.enforceMemoryLimit
  cases horder : tm.tileAccessOrder with
  | nil => simp [horder, TilingManager.enforceAux]
  | cons key rest =>
      simp [horder, TilingManager.enforceAux, not_lt.mpr h]

theorem enforceMemoryLimit_inv (tm : TilingManager) (hc : TMCore tm) :
    TMInv tm.enforceMemoryLimit := by
  refine ⟨enforceAux_core _ _ hc, ?_⟩
  rcases enforceAux_budget tm.tileAccessOrder.length tm (le_refl _) with h1 | h1
  · left; exact h1
  · right
    obtain ⟨hsub2, _, _, _⟩ := enforceAux_core tm.tileAccessOrder.length tm hc
    rw [h1] at hsub2
    have hkeysnil : (TilingManager.enforceAux tm.tileAccessOrder.length tm).keys = [] :=
      List.eq_nil_iff_forall_not_mem.mpr (fun k hk => by simpa using hsub2 k hk)
    have hmapnil : (TilingManager.enforceAux tm.tileAccessOrder.length
        tm).tiles.map Prod.fst = [] := by
      simpa [TilingManager.keys] using hkeysnil
    exact List.map_eq_nil_iff.mp hmapnil

theorem getOrCreateTile_inv (tm : TilingManager) (x y : Int) (layer : TMLayer)
    (h : TMInv tm) : TMInv (tm.getOrCreateTile x y layer).2 := by
  obtain ⟨⟨hsub, hkn, hon, hlog⟩, hbudget⟩ := h
  simp only [TilingManager.getOrCreateTile]
  cases hfind : listFind? tm.tiles
      (TilingManager.tileKey layer.id (x.fdiv tm.tileSize) (y.fdiv tm.tileSize)) with
  | some t =>
      have hmem : TilingManager.tileKey layer.id (x.fdiv tm.tileSize)
          (y.fdiv tm.tileSize) ∈ tm.keys := by
        have := listFind?_isSome (l := tm.tiles)
          (k := TilingManager.tileKey layer.id (x.fdiv tm.tileSize) (y.fdiv tm.tileSize))
        simp only [TilingManager.keys]
        exact this.1 (by simp [hfind])
      have hne : tm.tiles ≠ [] := by
        intro he
        rw [he] at hfind
        simp [listFind?] at hfind
      refine ⟨⟨?_, ?_, hon, hlog⟩, ?_⟩
      · intro k' hk'
        apply hsub
        simpa [TilingManager.keys, keys_listSet,
          show TilingManager.tileKey layer.id (x.fdiv tm.tileSize) (y.fdiv tm.tileSize) ∈
            tm.tiles.map Prod.fst from hmem] using hk'
      · simpa [TilingManager.keys, keys_listSet,
          show TilingManager.tileKey layer.id (x.fdiv tm.tileSize) (y.fdiv tm.tileSize) ∈
            tm.tiles.map Prod.fst from hmem] using hkn
      · left
        rcases hbudget with h1 | h1
        · exact h1
        · exact absurd h1 hne
  | none =>
      have hkeynot : TilingManager.tileKey layer.id (x.fdiv tm.tileSize)
          (y.fdiv tm.tileSize) ∉ tm.keys := listFind?_eq_none.1 hfind
      have hcoreMid : TMCore
          { tm with
              tiles := listSet tm.tiles
                (TilingManager.tileKey layer.id (x.fdiv tm.tileSize) (y.fdiv tm.tileSize))
                (Tile.new x y
                  (min tm.tileSize (layer.bounds.x + layer.bounds.width - x))
                  (min tm.tileSize (layer.bounds.y + layer.bounds.height - y))
                  layer.id (x.fdiv tm.tileSize) (y.fdiv tm.tileSize))
              layerTiles :=
                match listFind? tm.layerTiles layer.id with
                | none => listSet tm.layerTiles layer.id
                    [TilingManager.tileKey layer.id (x.fdiv tm.tileSize) (y.fdiv tm.tileSize)]
                | some ks =>
                    if TilingManager.tileKey layer.id (x.fdiv tm.tileSize)
                        (y.fdiv tm.tileSize) ∈ ks then tm.layerTiles
                    else listSet tm.layerTiles layer.id
                      (ks ++ [TilingManager.tileKey layer.id (x.fdiv tm.tileSize)
                        (y.fdiv tm.tileSize)])
              tileAccessOrder := TilingManager.updateTileAccessOrder tm.tileAccessOrder
                (TilingManager.tileKey layer.id (x.fdiv tm.tileSize) (y.fdiv tm.tileSize))
              stats := { tm.stats with
                           totalTilesCreated := tm.stats.totalTilesCreated + 1
                           cacheMisses := tm.stats.cacheMisses + 1 }
              currentMemoryUsage := tm.currentMemoryUsage +
                TilingManager.estimateTileMemoryUsage (Tile.new x y
                  (min tm.tileSize (layer.bounds.x + layer.bounds.width - x))
                  (min tm.tileSize (layer.bounds.y + layer.bounds.height - y))
                  layer.id (x.fdiv tm.tileSize) (y.fdiv tm.tileSize)) } := by
        refine ⟨?_, ?_, ?_, hlog⟩
        · intro k' hk'
          simp only [TilingManager.keys, keys_listSet,
            show TilingManager.tileKey layer.id (x.fdiv tm.tileSize) (y.fdiv tm.tileSize) ∉
              tm.tiles.map Prod.fst from hkeynot, if_neg] at hk'
          simp only [TilingManager.updateTileAccessOrder, List.mem_append,
            List.mem_singleton]
          rcases List.mem_append.mp hk' with h1 | h1
          · by_cases he : k' = TilingManager.tileKey layer.id (x.fdiv tm.tileSize)
                (y.fdiv tm.tileSize)
            · right; exact he
            · left
              exact (List.mem_erase_of_ne he).2 (hsub k' h1)
          · right; simpa using h1
        · simp only [TilingManager.keys, keys_listSet,
            show TilingManager.tileKey layer.id (x.fdiv tm.tileSize) (y.fdiv tm.tileSize) ∉
              tm.tiles.map Prod.fst from hkeynot, if_neg]
          simp only [TilingManager.keys] at hkn hkeynot
          refine hkn.append (List.nodup_singleton _) ?_
          intro a ha hb
          simp only [List.mem_singleton] at hb
          subst hb
          exact hkeynot ha
        · simp only [TilingManager.updateTileAccessOrder]
          have h1 : (tm.tileAccessOrder.erase (TilingManager.tileKey layer.id
              (x.fdiv tm.tileSize) (y.fdiv tm.tileSize))).Nodup := hon.erase _
          have h2 : TilingManager.tileKey layer.id (x.fdiv tm.tileSize)
              (y.fdiv tm.tileSize) ∉ tm.tileAccessOrder.erase (TilingManager.tileKey
                layer.id (x.fdiv tm.tileSize) (y.fdiv tm.tileSize)) :=
            hon.not_mem_erase
          refine h1.append (List.nodup_singleton _) ?_
          intro a ha hb
          simp only [List.mem_singleton] at hb
          subst hb
          exact h2 ha
      exact enforceMemoryLimit_inv _ hcoreMid

end AiBrowser

namespace AiBrowser

theorem getOrCreateTile_fold_inv (ops : List (Int × Int × TMLayer)) :
    ∀ tm : TilingManager, TMInv tm →
      TMInv (ops.foldl (fun s a => (s.getOrCreateTile a.1 a.2.1 a.2.2).2) tm) := by
  induction ops with
  | nil => intro tm h; exact h
  | cons op rest ih =>
      intro tm h
      simpa using ih _ (getOrCreateTile_inv tm op.1 op.2.1 op.2.2 h)

/-- C3: starting from any tiling-manager state satisfying the invariant
`TMInv` (which holds for the initial manager), `enforceMemoryLimit` does
nothing while within budget, evicts exclusively from the
least-recently-accessed front of the access order (the surviving order is
a tail of the old one), leaves every tile it logged as disposed without
backing storage, and afterwards the tracked memory is within the
configured budget unless no tiles remain; moreover `getOrCreateTile`
re-establishes all of this after every insertion, hence after every
sequence of insertions. -/
theorem claim_C3_memory_budget (tm : TilingManager) (h : TMInv tm) :
    (tm.currentMemoryUsage ≤ tm.maxMemoryUsage → tm.enforceMemoryLimit = tm) ∧
    (∃ n, tm.enforceMemoryLimit.tileAccessOrder = tm.tileAccessOrder.drop n) ∧
    (tm.enforceMemoryLimit.currentMemoryUsage ≤ tm.maxMemoryUsage ∨
      tm.enforceMemoryLimit.tiles = []) ∧
    (∀ t ∈ tm.enforceMemoryLimit.disposedLog, t.rasterizedContent = none) ∧
    (∀ x y layer, TMInv (tm.getOrCreateTile x y layer).2 ∧
      ((tm.getOrCreateTile x y layer).2.currentMemoryUsage ≤
          (tm.getOrCreateTile x y layer).2.maxMemoryUsage ∨
        (tm.getOrCreateTile x y layer).2.tiles = [])) ∧
    (∀ ops : List (Int × Int × TMLayer),
      TMInv (ops.foldl (fun s a => (s.getOrCreateTile a.1 a.2.1 a.2.2).2) tm)) := by
  obtain ⟨⟨hsub, hkn, hon, hlog⟩, hbudget⟩ := h
  refine ⟨enforceMemoryLimit_of_le tm, ?_, ?_, ?_, ?_, ?_⟩
  · exact enforceAux_suffix _ tm hon
  · rcases enforceAux_budget tm.tileAccessOrder.length tm (le_refl _) with h1 | h1
    · left
      have hmax := enforceAux_max tm.tileAccessOrder.length tm
      calc tm.enforceMemoryLimit.currentMemoryUsage
          ≤ tm.enforceMemoryLimit.maxMemoryUsage := h1
        _ = tm.maxMemoryUsage := hmax
    · have := enforceMemoryLimit_inv tm ⟨hsub, hkn, hon, hlog⟩
      rcases this.2 with h2 | h2
      · left
        have hmax := enforceAux_max tm.tileAccessOrder.length tm
        exact hmax ▸ h2
      · right; exact h2
  · exact (enforceAux_core _ tm ⟨hsub, hkn, hon, hlog⟩).2.2.2
  · intro x y layer
    have hinv := getOrCreateTile_inv tm x y layer ⟨⟨hsub, hkn, hon, hlog⟩, hbudget⟩
    exact ⟨hinv, hinv.2⟩
  · intro ops
    exact getOrCreateTile_fold_inv ops tm ⟨⟨hsub, hkn, hon, hlog⟩, hbudget⟩

/-- Witness for C3 at the freshly constructed tiling manager. -/
theorem claim_C3_memory_budget_witness :
    TMInv TilingManager.init ∧
    ((TilingManager.init.currentMemoryUsage ≤ TilingManager.init.maxMemoryUsage →
        TilingManager.init.enforceMemoryLimit = TilingManager.init) ∧
    (∃ n, TilingManager.init.enforceMemoryLimit.tileAccessOrder =
        TilingManager.init.tileAccessOrder.drop n) ∧
    (TilingManager.init.enforceMemoryLimit.currentMemoryUsage ≤
        TilingManager.init.maxMemoryUsage ∨
      TilingManager.init.enforceMemoryLimit.tiles = []) ∧
    (∀ t ∈ TilingManager.init.enforceMemoryLimit.disposedLog,
      t.rasterizedContent = none) ∧
    (∀ x y layer, TMInv (TilingManager.init.getOrCreateTile x y layer).2 ∧
      ((TilingManager.init.getOrCreateTile x y layer).2.currentMemoryUsage ≤
          (TilingManager.init.getOrCreateTile x y layer).2.maxMemoryUsage ∨
        (TilingManager.init.getOrCreateTile x y layer).2.tiles = [])) ∧
    (∀ ops : List (Int × Int × TMLayer),
      TMInv (ops.foldl (fun s a => (s.getOrCreateTile a.1 a.2.1 a.2.2).2)
        TilingManager.init))) :=
  ⟨by decide, claim_C3_memory_budget TilingManager.init (by decide)⟩

/-- C4 (evaluation at the failing input): two tiles of layer `L1` are
created, so the access order is `[L1_0_0, L1_1_0]`; a further
`getOrCreateTile` for the first tile is a cache hit that increments the
hit counter but leaves the access order unchanged — the hit tile is NOT
moved to the most-recently-used end (`[L1_1_0, L1_0_0]` would then be
the order). -/
theorem claim_C4_hit_keeps_stale_order :
    (let L : TMLayer :=
      { id := "L1", bounds := ⟨0, 0, 512, 256⟩, absoluteBounds := none,
        needsRepaint := false, dirtyRegion := none }
     let s₁ := (TilingManager.init.getOrCreateTile 0 0 L).2
     let s₂ := (s₁.getOrCreateTile 256 0 L).2
     let s₃ := (s₂.getOrCreateTile 0 0 L).2
     s₂.stats.cacheHits = 0 ∧ s₃.stats.cacheHits = 1 ∧
       s₂.tileAccessOrder = ["L1_0_0", "L1_1_0"] ∧
       s₃.tileAccessOrder = ["L1_0_0", "L1_1_0"] ∧
       s₃.tileAccessOrder ≠ ["L1_1_0", "L1_0_0"]) := by decide

/-- C6: tiling the layer with absolute bounds `(0,0,800,600)` at the
default tile edge 256 yields exactly 12 tiles whose pixel origins run
through x ∈ {0,256,512,768} and y ∈ {0,256,512}. -/
theorem claim_C6_tiling_800x600 :
    ((TilingManager.init.generateTilesForLayer
        { id := "L", bounds := ⟨0, 0, 800, 600⟩,
          absoluteBounds := some ⟨0, 0, 800, 600⟩,
          needsRepaint := false, dirtyRegion := none }
        ⟨0, 0, 800, 600⟩).1.map (fun t => (t.x, t.y))) =
      [(0, 0), (256, 0), (512, 0), (768, 0),
       (0, 256), (256, 256), (512, 256), (768, 256),
       (0, 512), (256, 512), (512, 512), (768, 512)] ∧
    (TilingManager.init.generateTilesForLayer
        { id := "L", bounds := ⟨0, 0, 800, 600⟩,
          absoluteBounds := some ⟨0, 0, 800, 600⟩,
          needsRepaint := false, dirtyRegion := none }
        ⟨0, 0, 800, 600⟩).1.length = 12 := by decide

end AiBrowser

namespace AiBrowser

theorem setBounds_restore (r : PaintRecord) (b : Rect) :
    (r.setBounds b).setBounds r.bounds = r := by
  cases r <;> rfl

theorem rasterStep_records (viewport : Rect) (c : Ctx) (acc : List PaintRecord)
    (record : PaintRecord) :
    (Rasterizer.rasterStep viewport (c, acc) record).2 = acc ++ [record] := by
  unfold Rasterizer.rasterStep
  by_cases h : (record.visible && Rasterizer.isRecordInViewport record viewport) = true
  · simp [h, setBounds_restore]
  · simp [h]

theorem rasterFold_records (viewport : Rect) (recs : List PaintRecord) :
    ∀ (c : Ctx) (acc : List PaintRecord),
      (recs.foldl (Rasterizer.rasterStep viewport) (c, acc)).2 = acc ++ recs := by
  induction recs with
  | nil => intro c acc; simp
  | cons r rest ih =>
      intro c acc
      rw [List.foldl_cons]
      have hstep := rasterStep_records viewport c acc r
      calc (rest.foldl (Rasterizer.rasterStep viewport)
              (Rasterizer.rasterStep viewport (c, acc) r)).2
          = (rest.foldl (Rasterizer.rasterStep viewport)
              ((Rasterizer.rasterStep viewport (c, acc) r).1,
                (Rasterizer.rasterStep viewport (c, acc) r).2)).2 := by
            rw [Prod.mk.eta]
        _ = (rest.foldl (Rasterizer.rasterStep viewport)
              ((Rasterizer.rasterStep viewport (c, acc) r).1, acc ++ [r])).2 := by
            rw [hstep]
        _ = (acc ++ [r]) ++ rest := ih _ _
        _ = acc ++ r :: rest := by simp

/-- C10: `rasterizePaintRecords` leaves every paint record of the layer
with exactly the bounds it had before the call — the translation into
tile-local coordinates is applied through a temporary replacement bounds
object and the original bounds are restored after each record is
executed, so the layer comes back unchanged. -/
theorem claim_C10_bounds_restored (ctx : Ctx) (layer : RasterLayer)
    (viewport : Rect) :
    (Rasterizer.rasterizePaintRecords ctx layer viewport).2 = layer := by
  unfold Rasterizer.rasterizePaintRecords
  simp [rasterFold_records]

end AiBrowser

namespace AiBrowser

/-- C1 (evaluation at the failing input): two tiles whose layers hold a
single rect record each, differing only in fill colour, receive the SAME
cache signature `layer_1_0_0_1_rect` from `generateTileSignature` — the
content hash records only the record count and the record types, so the
two tiles ARE treated as cache-equal, contrary to the claim. -/
theorem claim_C1_signature_collision :
    (let red := RectPaintRecord.new
      { fillStyle := some "#ff0000", bounds := some ⟨0, 0, 10, 10⟩,
        layerId := some "layer_1" }
     let blue := RectPaintRecord.new
      { fillStyle := some "#0000ff", bounds := some ⟨0, 0, 10, 10⟩,
        layerId := some "layer_1" }
     let layerOf := fun (r : PaintRecord) =>
      ({ id := "layer_1", bounds := ⟨0, 0, 256, 256⟩, transform := none,
         opacity := 1, clipRect := none, paintRecords := [r] } : RasterLayer)
     let tileOf := fun (r : PaintRecord) =>
      ({ layer := layerOf r, tileX := 0, tileY := 0, x := 0, y := 0,
         width := 256, height := 256 } : RasterTile)
     Rasterizer.generateTileSignature (tileOf red) =
        Rasterizer.generateTileSignature (tileOf blue) ∧
       Rasterizer.generateTileSignature (tileOf red) = "layer_1_0_0_1_rect" ∧
       red.fillStyle? = some "#ff0000" ∧
       blue.fillStyle? = some "#0000ff" ∧
       red ≠ blue) := by
  refine ⟨by decide, by decide, by decide, by decide, ?_⟩
  intro h
  have h2 := congrArg PaintRecord.fillStyle? h
  revert h2
  decide

end AiBrowser

namespace AiBrowser

/-- C5 (counterexample): a node with a background colour, text content
and a box shadow emits a background rect and a text record, yet
`createPaintRecordsForNode` returns ONLY a single shadow record — and
that record wraps the background rect (the first emitted record of any
kind), not the first content record; the background rect is dropped from
the output, contradicting the claim that it is kept. -/
theorem claim_C5_counterexample :
    (let node := LayoutNode.mk
        (some { NodeStyle.empty with
            backgroundColor := some "#ffffff"
            boxShadow := some "rgba(0,0,0,0.5) 2px 2px 4px" })
        (some ⟨0, 0, 100, 50⟩) none
        (some { tagName := none, nodeType := 3, data := some "hi" }) []
     ((PaintRecordGenerator.createBackgroundRecord node "L1").map
        PaintRecord.type = some "rect") ∧
     ((PaintRecordGenerator.createContentRecords node "L1").map
        PaintRecord.type = ["text"]) ∧
     ((PaintRecordGenerator.createPaintRecordsForNode node "L1").map
        PaintRecord.type = ["shadow"]) ∧
     (((PaintRecordGenerator.createPaintRecordsForNode node "L1").head?.bind
        PaintRecord.targetRecord?).map PaintRecord.type = some "rect")) := by
  decide

/-- C5 (amended): when the node's shadow style is present, non-empty and
not `none`, and at least one record was emitted, the node's whole record
list is replaced by ONE shadow record, whose target is the first emitted
record of any kind (the background rect when one exists); every other
record is dropped. -/
theorem claim_C5_shadow_replaces_all (node : LayoutNode) (layerId : String)
    (hshadow : ∃ s, PaintRecordGenerator.shadowStyleValue node = some s ∧
      s ≠ "" ∧ s ≠ "none")
    (hne : PaintRecordGenerator.baseRecords node layerId ≠ []) :
    ∃ sr, PaintRecordGenerator.createPaintRecordsForNode node layerId = [sr] ∧
      sr.type = "shadow" ∧
      sr.targetRecord? = (PaintRecordGenerator.baseRecords node layerId).head? := by
  obtain ⟨s, hs, hs1, hs2⟩ := hshadow
  cases hbase : PaintRecordGenerator.baseRecords node layerId with
  | nil => exact absurd hbase hne
  | cons first rest =>
      have hsr : PaintRecordGenerator.createShadowRecord node layerId
          (first :: rest) =
          some (ShadowPaintRecord.new
            { shadowColor := some (PaintRecordGenerator.parseShadow s).shadowColor
              shadowOffsetX := (PaintRecordGenerator.parseShadow s).shadowOffsetX
              shadowOffsetY := (PaintRecordGenerator.parseShadow s).shadowOffsetY
              shadowBlur := (PaintRecordGenerator.parseShadow s).shadowBlur
              bounds := some first.bounds
              layerId := some layerId }
            (some first)) := by
        unfold PaintRecordGenerator.createShadowRecord
        rw [hs]
        simp [hs1, hs2]
      refine ⟨ShadowPaintRecord.new
        { shadowColor := some (PaintRecordGenerator.parseShadow s).shadowColor
          shadowOffsetX := (PaintRecordGenerator.parseShadow s).shadowOffsetX
          shadowOffsetY := (PaintRecordGenerator.parseShadow s).shadowOffsetY
          shadowBlur := (PaintRecordGenerator.parseShadow s).shadowBlur
          bounds := some first.bounds
          layerId := some layerId }
        (some first), ?_, rfl, ?_⟩
      · unfold PaintRecordGenerator.createPaintRecordsForNode
        rw [hbase]
        simp only [hsr]
      · rfl

/-- Witness for the amended C5 at the counterexample node. -/
theorem claim_C5_shadow_replaces_all_witness :
    (let node := LayoutNode.mk
        (some { NodeStyle.empty with
            backgroundColor := some "#ffffff"
            boxShadow := some "rgba(0,0,0,0.5) 2px 2px 4px" })
        (some ⟨0, 0, 100, 50⟩) none
        (some { tagName := none, nodeType := 3, data := some "hi" }) []
     (∃ s, PaintRecordGenerator.shadowStyleValue node = some s ∧
        s ≠ "" ∧ s ≠ "none") ∧
     PaintRecordGenerator.baseRecords node "L1" ≠ [] ∧
     (∃ sr, PaintRecordGenerator.createPaintRecordsForNode node "L1" = [sr] ∧
        sr.type = "shadow" ∧
        sr.targetRecord? =
          (PaintRecordGenerator.baseRecords node "L1").head?)) := by
  refine ⟨⟨"rgba(0,0,0,0.5) 2px 2px 4px", rfl, by decide, by decide⟩, ?_, ?_⟩
  · intro h
    have h2 := congrArg List.length h
    revert h2
    decide
  · exact claim_C5_shadow_replaces_all _ "L1"
      ⟨"rgba(0,0,0,0.5) 2px 2px 4px", rfl, by decide, by decide⟩
      (by
        intro h
        have h2 := congrArg List.length h
        revert h2
        decide)

end AiBrowser

namespace AiBrowser

theorem listFind?_listSet (l : List (String × α)) (k i : String) (v : α) :
    listFind? (listSet l k v) i = if i = k then some v else listFind? l i := by
  induction l with
  | nil =>
      by_cases h : i = k
      · simp [listSet, listFind?, h]
      · simp [listSet, listFind?, h, Ne.symm h]
  | cons p rest ih =>
      obtain ⟨k₁, v₁⟩ := p
      by_cases hk : k₁ = k
      · subst hk
        by_cases hi : k₁ = i
        · simp [listSet, listFind?, hi]
        · simp [listSet, listFind?, hi, Ne.symm hi]
      · by_cases hi : k₁ = i
        · subst hi
          have hik : ¬ k₁ = k := hk
          simp [listSet, listFind?, hk, hik]
        · simp [listSet, listFind?, hk, hi, ih]

theorem opacityAt_update (t : LayerTree) (id i : String)
    (f : LayerData → LayerData) (hf : ∀ l, (f l).opacity = l.opacity) :
    opacityAt (t.update id f) i = opacityAt t i := by
  unfold LayerTree.update opacityAt
  cases h : listFind? t.layers id with
  | none => rfl
  | some l =>
      simp only [listFind?_listSet]
      by_cases hi : i = id
      · subst hi
        simp [h, hf]
      · simp [hi]

theorem opacityAt_removeChild (t : LayerTree) (p c i : String) :
    opacityAt (t.removeChild p c) i = opacityAt t i := by
  unfold LayerTree.removeChild
  cases h : listFind? t.layers p with
  | none => rfl
  | some parent =>
      by_cases hmem : c ∈ parent.childIds
      · simp only [if_pos hmem]
        rw [opacityAt_update, opacityAt_update]
        · intro l; rfl
        · intro l; rfl
      · simp [hmem]

theorem opacityAt_addChild (t : LayerTree) (p c i : String) :
    opacityAt (t.addChild p c) i = opacityAt t i := by
  unfold LayerTree.addChild
  cases h : (listFind? t.layers c).bind (·.parent) with
  | none =>
      simp only
      rw [opacityAt_update, opacityAt_update]
      · intro l; rfl
      · intro l; rfl
  | some oldParent =>
      simp only
      rw [opacityAt_update, opacityAt_update, opacityAt_removeChild]
      · intro l; rfl
      · intro l; rfl

theorem createLayer_opacity (tree : LayerTree) (options : LayerOptions) :
    opacityAt (tree.createLayer options).2 (tree.createLayer options).1 =
      some (jsOrQ options.opacity 1) := by
  unfold LayerTree.createLayer opacityAt
  cases hid : options.id with
  | none => simp [listFind?_listSet, Layer.new]
  | some i =>
      by_cases hi : i = ""
      · simp [hi, listFind?_listSet, Layer.new]
      · simp [hi, listFind?_listSet, Layer.new]

theorem jsOrQ_ne_zero (x : Option ℚ) : jsOrQ x 1 ≠ 0 := by
  unfold jsOrQ
  cases x with
  | none => exact one_ne_zero
  | some v =>
      by_cases h : v = 0
      · simp [h]
      · simp [h]

theorem jsOrQ_idem (x : Option ℚ) : jsOrQ (some (jsOrQ x 1)) 1 = jsOrQ x 1 := by
  have h := jsOrQ_ne_zero x
  unfold jsOrQ
  unfold jsOrQ at h
  simp [h]

theorem createLayerForNode_opacity (node : LayoutNode) (parentId : String)
    (tree : LayerTree) (reason : String) :
    opacityAt (LayerTreeCalculator.createLayerForNode node parentId tree reason).2
        (LayerTreeCalculator.createLayerForNode node parentId tree reason).1 =
      some (jsOrQ ((node.style.getD NodeStyle.empty).opacity.bind parseFloatQ) 1) := by
  unfold LayerTreeCalculator.createLayerForNode
  simp only
  rw [opacityAt_addChild, opacityAt_update]
  · split
    · rw [opacityAt_update]
      · split
        · rw [opacityAt_update]
          · rw [createLayer_opacity]
            simp [jsOrQ_idem]
          · intro l; rfl
        · rw [createLayer_opacity]
          simp [jsOrQ_idem]
      · intro l; rfl
    · split
      · rw [opacityAt_update]
        · rw [createLayer_opacity]
          simp [jsOrQ_idem]
        · intro l; rfl
      · rw [createLayer_opacity]
        simp [jsOrQ_idem]
  · intro l; rfl

theorem parseFloatQ_zero : parseFloatQ "0" = some 0 := by
  have h : parseFloatQ "0" = some ((digitsToNat ['0'] : ℚ) +
      (digitsToNat [] : ℚ) / ((10 : ℚ) ^ ([] : List Char).length)) := rfl
  rw [h]
  norm_num [digitsToNat]
  rfl

end AiBrowser

namespace AiBrowser

/-- C2 (counterexample): a `null` layout tree makes `calculate` throw —
the first statement already dereferences `layoutTree.root`, so the claim
that a null layout tree never raises is false. -/
theorem claim_C2_counterexample :
    LayerTreeCalculator.calculate none =
      Except.error "TypeError: Cannot read properties of null (reading root)" :=
  rfl

/-- C2 (amended): every layout-tree object (malformed or not) runs to
completion without raising, and a tree whose root is null yields an
empty LayerTree: exactly one layer (the root), with no children and
zeroed statistics; only a null layout tree itself raises. -/
theorem claim_C2_null_root_empty_tree :
    (∀ lt : LayoutTree, ∃ p, LayerTreeCalculator.calculate (some lt) =
      Except.ok p) ∧
    (LayerTreeCalculator.calculate (some { root := none })).isOk = true ∧
    ((LayerTreeCalculator.calculate (some { root := none })).toOption.map
      (fun p => (p.1.layers.map Prod.fst,
        (listFind? p.1.layers "root").map (fun l => l.childIds),
        p.1.rootId, p.2))) =
      some (["root"], some [], "root", CalcStats.init) := by
  refine ⟨?_, by decide, by decide⟩
  intro lt
  unfold LayerTreeCalculator.calculate
  exact ⟨_, rfl⟩

/-- C9: the `Layer` constructor maps an explicit opacity of 0 to the
default 1.0 (JS `||` treats 0 as falsy), `createLayerForNode` maps a
style opacity of `"0"` to a layer opacity of 1.0, and neither entry
point can produce a layer with opacity 0. -/
theorem claim_C9_opacity_never_zero :
    (∀ (options : LayerOptions) (gid : String),
        options.opacity = some 0 → (Layer.new options gid).opacity = 1) ∧
    (∀ (options : LayerOptions) (gid : String),
        (Layer.new options gid).opacity ≠ 0) ∧
    (∀ (node : LayoutNode) (parentId : String) (tree : LayerTree)
        (reason : String),
        (node.style.getD NodeStyle.empty).opacity = some "0" →
        opacityAt (LayerTreeCalculator.createLayerForNode node parentId tree
            reason).2
          (LayerTreeCalculator.createLayerForNode node parentId tree reason).1 =
          some 1) ∧
    (∀ (node : LayoutNode) (parentId : String) (tree : LayerTree)
        (reason : String),
        opacityAt (LayerTreeCalculator.createLayerForNode node parentId tree
            reason).2
          (LayerTreeCalculator.createLayerForNode node parentId tree reason).1 ≠
          some 0) := by
  refine ⟨?_, ?_, ?_, ?_⟩
  · intro options gid h
    simp [Layer.new, jsOrQ, h]
  · intro options gid
    simp only [Layer.new]
    exact jsOrQ_ne_zero _
  · intro node parentId tree reason h
    rw [createLayerForNode_opacity, h]
    simp [parseFloatQ_zero, jsOrQ]
  · intro node parentId tree reason
    rw [createLayerForNode_opacity]
    have h := jsOrQ_ne_zero ((node.style.getD NodeStyle.empty).opacity.bind
      parseFloatQ)
    simp [h]

/-- Witness for C9: a constructor call with opacity exactly 0 and a node
styled `opacity: "0"` both yield opacity 1. -/
theorem claim_C9_opacity_never_zero_witness :
    (({ opacity := some 0 } : LayerOptions).opacity = some 0 ∧
      (Layer.new { opacity := some 0 } "layer_w").opacity = 1) ∧
    (((LayoutNode.mk (some { NodeStyle.empty with opacity := some "0" })
        (some ⟨0, 0, 10, 10⟩) none none []).style.getD
          NodeStyle.empty).opacity = some "0" ∧
      opacityAt (LayerTreeCalculator.createLayerForNode
          (LayoutNode.mk (some { NodeStyle.empty with opacity := some "0" })
            (some ⟨0, 0, 10, 10⟩) none none []) "root" LayerTree.new
          "opacity").2
        (LayerTreeCalculator.createLayerForNode
          (LayoutNode.mk (some { NodeStyle.empty with opacity := some "0" })
            (some ⟨0, 0, 10, 10⟩) none none []) "root" LayerTree.new
          "opacity").1 = some 1) :=
  ⟨⟨rfl, claim_C9_opacity_never_zero.1 _ "layer_w" rfl⟩,
    rfl, claim_C9_opacity_never_zero.2.2.1 _ "root" LayerTree.new "opacity" rfl⟩

end AiBrowser

namespace AiBrowser

/-- C8: with batching enabled, a visible quad whose
(shader, texture, blendMode) triple equals that of the nonempty open
batch is appended to it (buffer and stats untouched); a quad differing
in at least one of the three flushes the open batch as exactly one
buffered draw command and opens a new batch holding just that quad; and
executing a batch of n quads adds exactly 1 draw call, n quads and 2n
triangles to the statistics. -/
theorem claim_C8_batching :
    (∀ (s : GPUSimulator) (q : DrawQuad),
      s.enableBatching = true → q.visible = true →
      s.currentBatch.quads ≠ [] →
      ((s.currentBatch.shader = q.shader ∧ s.currentBatch.texture = q.texture ∧
          s.currentBatch.blendMode = q.blendMode) →
        (s.submitDrawQuad q).currentBatch.quads = s.currentBatch.quads ++ [q] ∧
        (s.submitDrawQuad q).commandBuffer = s.commandBuffer ∧
        (s.submitDrawQuad q).stats = s.stats) ∧
      (¬(s.currentBatch.shader = q.shader ∧ s.currentBatch.texture = q.texture ∧
          s.currentBatch.blendMode = q.blendMode) →
        (s.submitDrawQuad q).commandBuffer = s.commandBuffer ++
          [DrawCommand.batch s.currentBatch.quads s.currentBatch.shader
            s.currentBatch.texture s.currentBatch.blendMode] ∧
        (s.submitDrawQuad q).currentBatch =
          ⟨[q], q.shader, q.texture, q.blendMode⟩ ∧
        (s.submitDrawQuad q).stats.batchCount = s.stats.batchCount + 1)) ∧
    (∀ (s : GPUSimulator) (ctx : Ctx) (viewport : Rect)
      (quads : List DrawQuad) (shader : String) (texture : Option Nat)
      (blendMode : String),
      quads ≠ [] →
      (s.executeBatchDraw ctx
          (DrawCommand.batch quads shader texture blendMode)
          viewport).1.stats.totalDrawCalls = s.stats.totalDrawCalls + 1 ∧
      (s.executeBatchDraw ctx
          (DrawCommand.batch quads shader texture blendMode)
          viewport).1.stats.totalTriangles =
        s.stats.totalTriangles + quads.length * 2 ∧
      (s.executeBatchDraw ctx
          (DrawCommand.batch quads shader texture blendMode)
          viewport).1.stats.totalQuads = s.stats.totalQuads + quads.length) := by
  constructor
  · intro s q hb hv hne
    have hni : s.currentBatch.quads.isEmpty = false := by
      cases h : s.currentBatch.quads with
      | nil => exact absurd h hne
      | cons a l => rfl
    constructor
    · intro ⟨h1, h2, h3⟩
      simp [GPUSimulator.submitDrawQuad, GPUSimulator.canBatchWithCurrent,
        hv, hb, hni, h1, h2, h3]
    · intro hmis
      have hcb : s.canBatchWithCurrent q = false := by
        unfold GPUSimulator.canBatchWithCurrent
        rw [hni]
        simp only [Bool.false_eq_true, if_neg]
        by_cases h1 : s.currentBatch.shader = q.shader
        · by_cases h2 : s.currentBatch.texture = q.texture
          · by_cases h3 : s.currentBatch.blendMode = q.blendMode
            · exact absurd ⟨h1, h2, h3⟩ hmis
            · simp [h1, h2, h3]
          · simp [h1, h2]
        · simp [h1]
      simp [GPUSimulator.submitDrawQuad, GPUSimulator.flushCurrentBatch,
        hv, hb, hcb, hni]
  · intro s ctx viewport quads shader texture blendMode hne
    have hni : quads.isEmpty = false := by
      cases h : quads with
      | nil => exact absurd h hne
      | cons a l => rfl
    simp only [GPUSimulator.executeBatchDraw]
    rw [if_neg (by simp [hni])]
    unfold GPUSimulator.bindShader GPUSimulator.bindTexture
    cases texture with
    | none => split <;> (try split) <;> simp_all
    | some t => split <;> (try split) <;> (try split) <;> simp_all

/-- Witness for C8: a matching quad extends the open one-quad batch; a
mismatching quad (different shader) flushes it; executing the one-quad
batch adds one draw call and two triangles. -/
theorem claim_C8_batching_witness :
    (let qA := DrawQuad.new {}
     let qB := DrawQuad.new { shader := some "solid" }
     let s₁ := GPUSimulator.init.submitDrawQuad qA
     (s₁.enableBatching = true ∧ qA.visible = true ∧
        s₁.currentBatch.quads ≠ [] ∧
        (s₁.currentBatch.shader = qA.shader ∧
          s₁.currentBatch.texture = qA.texture ∧
          s₁.currentBatch.blendMode = qA.blendMode) ∧
        ((s₁.submitDrawQuad qA).currentBatch.quads =
            s₁.currentBatch.quads ++ [qA] ∧
          (s₁.submitDrawQuad qA).commandBuffer = s₁.commandBuffer ∧
          (s₁.submitDrawQuad qA).stats = s₁.stats)) ∧
     (qB.visible = true ∧
        ¬(s₁.currentBatch.shader = qB.shader ∧
            s₁.currentBatch.texture = qB.texture ∧
            s₁.currentBatch.blendMode = qB.blendMode) ∧
        ((s₁.submitDrawQuad qB).commandBuffer = s₁.commandBuffer ++
            [DrawCommand.batch s₁.currentBatch.quads s₁.currentBatch.shader
              s₁.currentBatch.texture s₁.currentBatch.blendMode] ∧
          (s₁.submitDrawQuad qB).currentBatch =
            ⟨[qB], qB.shader, qB.texture, qB.blendMode⟩ ∧
          (s₁.submitDrawQuad qB).stats.batchCount =
            s₁.stats.batchCount + 1)) ∧
     (([qA] : List DrawQuad) ≠ [] ∧
        (GPUSimulator.init.executeBatchDraw Ctx.init
            (DrawCommand.batch [qA] "default" none "source-over")
            ⟨0, 0, 800, 600⟩).1.stats.totalDrawCalls =
          GPUSimulator.init.stats.totalDrawCalls + 1 ∧
        (GPUSimulator.init.executeBatchDraw Ctx.init
            (DrawCommand.batch [qA] "default" none "source-over")
            ⟨0, 0, 800, 600⟩).1.stats.totalTriangles =
          GPUSimulator.init.stats.totalTriangles + 2)) := by
  refine ⟨⟨rfl, rfl, by decide, ⟨rfl, rfl, rfl⟩, ?_⟩, ⟨rfl, by decide, ?_⟩,
    by decide, ?_, ?_⟩
  · exact (claim_C8_batching.1 _ _ rfl rfl (by decide)).1 ⟨rfl, rfl, rfl⟩
  · exact (claim_C8_batching.1 _ _ rfl rfl (by decide)).2 (by decide)
  · exact ((claim_C8_batching.2 GPUSimulator.init Ctx.init ⟨0, 0, 800, 600⟩
      [DrawQuad.new {}] "default" none "source-over") (by decide)).1
  · exact ((claim_C8_batching.2 GPUSimulator.init Ctx.init ⟨0, 0, 800, 600⟩
      [DrawQuad.new {}] "default" none "source-over") (by decide)).2.1

end AiBrowser


/-! ## Claim C7: the compositor catches pipeline errors -/

namespace AiBrowser

/-- C7: for every compositor state, layer tree argument (including null)
and viewport option, `Compositor.composite` (i) returns the stats object
of the final compositor state — an exception never propagates to the
caller and a stats object is always produced; (ii) whenever the try
block (stages 1–4, `Compositor.compositeSteps`) throws, the catch
handler leaves the surface in a defined state: the op log as of the
throw point is extended by exactly a full-canvas clear, the red fill
style, the monospace font and the painted diagnostic line carrying the
error message; and (iii) whenever the try block completes, the surface
is exactly what the four stages drew — no diagnostic is added. -/
theorem claim_C7_composite_catches (c : Compositor)
    (layerTree : Option LayerTree) (optViewport : Option Rect) :
    ((Compositor.composite c layerTree optViewport).2.2 =
      (Compositor.composite c layerTree optViewport).1.stats) ∧
    (∀ msg cerr,
      Compositor.compositeSteps
          (Compositor.beginFrame c layerTree optViewport) layerTree =
        .error (msg, cerr) →
      (Compositor.composite c layerTree optViewport).1.ctx.ops =
        cerr.ctx.ops ++
          [CtxOp.clearRect 0 0 cerr.canvasWidth cerr.canvasHeight,
            CtxOp.setFillStyle "#ff0000", CtxOp.setFont "16px monospace",
            CtxOp.fillText ("合成器错误: " ++ msg) 10 30 none]) ∧
    (∀ res,
      Compositor.compositeSteps
          (Compositor.beginFrame c layerTree optViewport) layerTree =
        .ok res →
      (Compositor.composite c layerTree optViewport).1.ctx = res.1.ctx) := by
  refine ⟨?_, ?_, ?_⟩
  · cases h : Compositor.compositeSteps
        (Compositor.beginFrame c layerTree optViewport) layerTree with
    | ok res => simp [Compositor.composite, h]
    | error e => simp [Compositor.composite, h]
  · intro msg cerr h
    simp [Compositor.composite, h, Compositor.handleCompositorError,
      Ctx.emit, List.append_assoc]
  · intro res h
    simp [Compositor.composite, h]

/-- Witness for C7 at a concrete input: a fresh 800×600 compositor fed
the null layer tree.  The try block throws at stage 1, and the returned
surface log is exactly the clear plus the diagnostic text. -/
theorem claim_C7_composite_catches_witness :
    (Compositor.composite (Compositor.new 800 600 {}) none none).1.ctx.ops =
      [CtxOp.clearRect 0 0 800 600, CtxOp.setFillStyle "#ff0000",
        CtxOp.setFont "16px monospace",
        CtxOp.fillText
          "合成器错误: Cannot read properties of null (reading traverseLayers)"
          10 30 none] := by
  have h := (claim_C7_composite_catches (Compositor.new 800 600 {})
      none none).2.1
    "Cannot read properties of null (reading traverseLayers)"
    (Compositor.beginFrame (Compositor.new 800 600 {}) none none)
    (by rfl)
  simpa [Compositor.beginFrame, Compositor.new] using h

end AiBrowser
